import Mathlib

/-!
Shallow embedding of the QuadrupedKinematics leg core: the inverse-kinematics
solver (`Kinematics.cpp`) and the per-leg gait step planner (`StepPlanner`).

Conventions of the embedding:
* C `float`/`double` arithmetic is totalised over `ℝ` (so `x / 0 = 0`,
  `Real.sqrt` of a negative is `0`, and `Real.arccos` saturates outside
  `[-1, 1]`); `lrint` is modelled as `round`, and the C cast of a
  non-negative float to an integer type as `Int.floor`.
* `int16_t`/`uint16_t`/`uint8_t` quantities are modelled as `ℤ`/`ℕ`; where a
  narrowing conversion matters it is stated explicitly (`% 65536` for the
  int → uint16_t conversion in `_degreesToMicros`).
* C integer division truncates toward zero and is modelled by `Int.tdiv`.
* Compile-time constants that live in the headers (which are not part of
  `src/`) are threaded as parameters; each such parameter is documented where
  it is introduced.
-/

open Real

/-- Easing kinds of the external ValueInterpolator collaborator. Modelled
from the spec: the core only ever commands linear easing. -/
inductive EasingKind where
  | LINEAR
  deriving DecidableEq

/-- Repeat modes of the external ValueInterpolator collaborator. Modelled
from the spec: run once forward, or sweep forth and back. -/
inductive RepeatKind where
  | ONCEFORWARD
  | FORTHANDBACK
  deriving DecidableEq

/-- The compile-time constants used by `Kinematics.cpp` that are declared in
the missing header `Kinematics.h`. Modelled from the spec: limb lengths,
shoulder-foot reach bounds, per-joint home-position offsets and per-joint
angle limits, all integer-valued, bundled as parameters. -/
structure KinConsts where
  LIMB_1 : ℤ
  LIMB_2 : ℤ
  LIMB_3 : ℤ
  SHOULDER_FOOT_MIN : ℤ
  SHOULDER_FOOT_MAX : ℤ
  M1_OFFSET : ℤ
  M2_OFFSET : ℤ
  M3_OFFSET : ℤ
  M1_MIN : ℤ
  M1_MAX : ℤ
  M2_MIN : ℤ
  M2_MAX : ℤ
  M3_MIN : ℤ
  M3_MAX : ℤ
  deriving DecidableEq

/-- Per-motor state of the solver (`Kinematics.cpp`): the current target
angle and the previously commanded target angle, in integer degrees.
(The micros fields and the dynamic-track fields are derived outputs and are
not needed by the claims about `setFootEndpoint`.) -/
structure Motor where
  angleDegrees : ℤ
  previousDegrees : ℤ
  deriving DecidableEq

/-- State of one `Kinematics` leg-solver instance: its three motors. -/
structure Kinematics where
  motor1 : Motor
  motor2 : Motor
  motor3 : Motor
  deriving DecidableEq

namespace Kinematics

/-- Embeds `Kinematics::solveYMove` (src/Kinematics.cpp lines 113-131).
Returns the pair (contribution added to `demandAngle1`, with the
`inputY < LIMB_1` sign rule already applied to the accumulator that starts
at zero, `yPlaneZOutput`). Divisions and square roots are the real-number
totalisations of the float operations. -/
noncomputable def solveYMove (c : KinConsts) (inputY inputZ : ℤ) : ℝ × ℝ :=
  let demandFtShldrLength : ℝ :=
    Real.sqrt ((|inputZ| : ℝ) ^ 2 + (|inputY| : ℝ) ^ 2)
  let yPlaneZOutput : ℝ :=
    Real.sqrt (|demandFtShldrLength| ^ 2 - (|(c.LIMB_1 : ℝ)|) ^ 2)
  let theta : ℝ := |Real.arctan ((inputY : ℝ) / (inputZ : ℝ)) * 180 / π|
  let alpha : ℝ := Real.arccos ((c.LIMB_1 : ℝ) / demandFtShldrLength) * 180 / π
  let base : ℝ :=
    if 0 ≤ inputY then |(90 : ℝ) - (theta + alpha)|
    else |(90 : ℝ) - (alpha - theta)|
  let demandAngle1 : ℝ := if inputY < c.LIMB_1 then -base else base
  (demandAngle1, yPlaneZOutput)

/-- Embeds `Kinematics::solveXMove` (src/Kinematics.cpp lines 99-109).
`inputZraw` is the (already truncated-to-integer) second argument; the
source replaces a zero `inputZ` by `1` before dividing. Returns
(`demandAngle2` as assigned, `demandFtShldrLength`). -/
noncomputable def solveXMove (_c : KinConsts) (inputX inputZraw : ℤ) : ℝ × ℝ :=
  let inputZ : ℤ := if inputZraw = 0 then 1 else inputZraw
  let demandFtShldrLength : ℝ :=
    Real.sqrt ((|inputZ| : ℝ) ^ 2 + (|inputX| : ℝ) ^ 2)
  let a2 : ℝ := Real.arctan ((|inputX| : ℝ) / (|inputZ| : ℝ)) * 180 / π
  let demandAngle2 : ℝ := if 0 < inputX then -a2 else a2
  (demandAngle2, demandFtShldrLength)

/-- Embeds `Kinematics::solveFtShldrLength` (src/Kinematics.cpp lines
78-95). As in the source, the clamped value `_demandFtShldrLength` is
computed but never used afterwards: the Law-of-Cosines ratio is formed from
the raw `demandFtShldr` argument. Returns the pair (contribution added to
`demandAngle2`, contribution added to `demandAngle3`). -/
noncomputable def solveFtShldrLength (c : KinConsts) (demandFtShldr : ℝ) :
    ℝ × ℝ :=
  let _demandFtShldrLength : ℝ :=
    if demandFtShldr > (c.SHOULDER_FOOT_MAX : ℝ) then (c.SHOULDER_FOOT_MAX : ℝ)
    else if demandFtShldr < (c.SHOULDER_FOOT_MIN : ℝ) then
      (c.SHOULDER_FOOT_MIN : ℝ)
    else demandFtShldr
  let demandAngle3 : ℝ :=
    Real.arccos ((demandFtShldr ^ 2 - (c.LIMB_2 : ℝ) ^ 2 - (c.LIMB_3 : ℝ) ^ 2) /
      (-2 * (c.LIMB_2 : ℝ) * (c.LIMB_3 : ℝ))) * 180 / π
  let demandAngle2 : ℝ := (180 - demandAngle3) / 2
  (demandAngle2, demandAngle3)

/-- Embeds `Kinematics::_applyConstraints` (src/Kinematics.cpp lines
177-214). The final else branch of the source is a deliberate halt
(contract violation on the motor index); it is modelled as `none`. -/
def _applyConstraints (c : KinConsts) (motor : ℕ) (demandAngle : ℤ) :
    Option ℤ :=
  if motor = 1 then
    some (if demandAngle > c.M1_MAX then c.M1_MAX
      else if demandAngle < c.M1_MIN then c.M1_MIN else demandAngle)
  else if motor = 2 then
    some (if demandAngle > c.M2_MAX then c.M2_MAX
      else if demandAngle < c.M2_MIN then c.M2_MIN else demandAngle)
  else if motor = 3 then
    some (if demandAngle > c.M3_MAX then c.M3_MAX
      else if demandAngle < c.M3_MIN then c.M3_MIN else demandAngle)
  else none

/-- Embeds `Kinematics::solveFootPosition` (src/Kinematics.cpp lines
134-173): the three accumulator stages, `lrint` rounding, per-joint offsets
(joint 3 mirrored around `M3_OFFSET`), and the terminal clamp. The float
`yPlaneZOutput` is narrowed to the `int16_t` parameter of `solveXMove` by
the C implicit conversion, i.e. truncation (the value is a non-negative
square root, so this is `Int.floor`). The three calls to
`_applyConstraints` use the literal motor indices 1, 2, 3, so the `none`
(halt) branch is unreachable; `getD 0` discharges the `Option`. -/
noncomputable def solveFootPosition (c : KinConsts) (inputX inputY inputZ : ℤ) :
    ℤ × ℤ × ℤ :=
  let rY := solveYMove c inputY inputZ
  let rX := solveXMove c inputX ⌊rY.2⌋
  let rL := solveFtShldrLength c rX.2
  let demandAngle1 : ℤ := round rY.1 + c.M1_OFFSET
  let demandAngle2 : ℤ := round (rX.1 + rL.1) + c.M2_OFFSET
  let demandAngle3 : ℤ := (c.M3_OFFSET - round rL.2) + c.M3_OFFSET
  ((_applyConstraints c 1 demandAngle1).getD 0,
   (_applyConstraints c 2 demandAngle2).getD 0,
   (_applyConstraints c 3 demandAngle3).getD 0)

/-- Embeds `Kinematics::_degreesToMicros` (src/Kinematics.cpp lines 39-42).
Modelled from the spec: `DEGREES_TO_MICROS` is a fixed constant declared in
the missing header, modelled as a natural-number parameter. The `int`
intermediate is exact; the `uint16_t` return narrows it mod 2^16. The
`uint8_t` parameters are modelled as naturals, with their 0..255 range
carried as hypotheses where a theorem needs it. -/
def _degreesToMicros (DEGREES_TO_MICROS : ℕ)
    (inputDegrees calibOffset : ℕ) : ℕ :=
  (DEGREES_TO_MICROS * inputDegrees + 500 + calibOffset) % 65536

/-- One interpolator command as issued by `Kinematics::setFootEndpoint` to a
`dynamicX`/`dynamicY`/`dynamicZ` value interpolator. -/
structure KinInterpCmd where
  target : ℤ
  duration : ℕ
  easing : EasingKind
  repeatMode : RepeatKind
  deriving DecidableEq

/-- Embeds `Kinematics::setFootEndpoint` (src/Kinematics.cpp lines 47-67).
Modelled from the spec: `MAX_SPEED_INVERSE` is a fixed constant in the
missing header, modelled as a natural-number parameter (so the `lrint` is
exact). Returns the updated motor state together with the triple of
interpolator commands issued to `dynamicX`, `dynamicY`, `dynamicZ`, or
`none` when the source issues no command. -/
noncomputable def setFootEndpoint (c : KinConsts) (MAX_SPEED_INVERSE : ℕ)
    (s : Kinematics) (inputX inputY inputZ : ℤ) :
    Kinematics × Option (KinInterpCmd × KinInterpCmd × KinInterpCmd) :=
  let a := solveFootPosition c inputX inputY inputZ
  let motor1AngleDelta : ℕ := (a.1 - s.motor1.previousDegrees).natAbs
  let motor2AngleDelta : ℕ := (a.2.1 - s.motor2.previousDegrees).natAbs
  let motor3AngleDelta : ℕ := (a.2.2 - s.motor3.previousDegrees).natAbs
  let demandTime : ℕ :=
    MAX_SPEED_INVERSE * max (max motor1AngleDelta motor2AngleDelta)
      motor3AngleDelta
  if s.motor1.previousDegrees ≠ a.1 ∨ s.motor2.previousDegrees ≠ a.2.1 ∨
      s.motor3.previousDegrees ≠ a.2.2 then
    (⟨⟨a.1, a.1⟩, ⟨a.2.1, a.2.1⟩, ⟨a.2.2, a.2.2⟩⟩,
     some (⟨inputX, demandTime, EasingKind.LINEAR, RepeatKind.ONCEFORWARD⟩,
           ⟨inputY, demandTime, EasingKind.LINEAR, RepeatKind.ONCEFORWARD⟩,
           ⟨inputZ, demandTime, EasingKind.LINEAR, RepeatKind.ONCEFORWARD⟩))
  else
    (⟨⟨a.1, s.motor1.previousDegrees⟩, ⟨a.2.1, s.motor2.previousDegrees⟩,
      ⟨a.2.2, s.motor3.previousDegrees⟩⟩, none)

end Kinematics

/-- Leg identities (`LegID` in the missing StepPlanner header). Modelled
from the spec: four positions; `LEG_1`/`LEG_3` form the arc-leading group
and `LEG_2`/`LEG_3` are the x-mirrored identities, as used by the source. -/
inductive LegID where
  | LEG_1
  | LEG_2
  | LEG_3
  | LEG_4
  deriving DecidableEq

/-- Gait phases of the per-leg state machine (`LegMode` in the missing
header), as matched on by the source. -/
inductive LegMode where
  | STANDING
  | FIRST_STEP_ARC
  | FIRST_STEP_DRAW_BACK
  | ACTIVE_WALKING_ARC
  | ACTIVE_WALKING_DRAW_BACK
  deriving DecidableEq

/-- Robot-wide modes (`ROBOT_MODE` in the missing header). Modelled from
the spec: walking and static standing. -/
inductive ROBOT_MODE where
  | WALKING
  | STATIC_STANDING
  deriving DecidableEq

/-- Gait types (`GaitType` in the missing header). Modelled from the spec:
currently the single profile TROT. -/
inductive GaitType where
  | TROT
  deriving DecidableEq

/-- Modelled from the spec: the default gait selected by `init`; with a
single profile this is TROT. -/
def DEFAULT_GAIT : GaitType := GaitType.TROT

/-- Per gait-type constants, as written by `StepPlanner::init`. -/
structure GaitProfile where
  amplitude : ℤ
  periodHalf : ℤ
  deriving DecidableEq

/-- The last command given to a ValueInterpolator: either an immediate
snap (`go(target)`) or a timed move (`go(target, duration, easing,
repeat)`). -/
inductive InterpCommand where
  | snapTo (target : ℝ)
  | moveTo (target : ℝ) (duration : ℤ) (easing : EasingKind)
      (repeatMode : RepeatKind)

/-- Modelled from the spec: the external ValueInterpolator collaborator,
reduced to what the core observes — the value its `update()` returns now
(`val`) and the last command it was given (`cmd`). A snap retargets the
value immediately; a timed move retargets without an instantaneous value
change. -/
structure ValueInterpolator where
  val : ℝ
  cmd : InterpCommand

namespace ValueInterpolator

/-- `go(target)`: immediate retarget with no timed transition. -/
def go (_i : ValueInterpolator) (target : ℝ) : ValueInterpolator :=
  ⟨target, InterpCommand.snapTo target⟩

/-- `go(target, duration, easing, repeatMode)`: timed retarget. -/
def goTimed (i : ValueInterpolator) (target : ℝ) (duration : ℤ)
    (easing : EasingKind) (repeatMode : RepeatKind) : ValueInterpolator :=
  ⟨i.val, InterpCommand.moveTo target duration easing repeatMode⟩

/-- `update()`: the interpolated value for "now". -/
def update (i : ValueInterpolator) : ℝ := i.val

end ValueInterpolator

/-- State of one `StepPlanner` instance (src/unnamed/part_000). The single
TROT entry of the `_gaits` array is the field `trotGait`.
`_previousUpdateTime` (wall-clock bookkeeping for the modulo rate gate) is
not part of the state: the gate's outcome is passed to `update` as the
`scheduled` flag. -/
structure StepPlanner where
  _legID : LegID
  _legMode : LegMode
  _gaitType : GaitType
  _robotHeight : ℤ
  trotGait : GaitProfile
  _footXYDrop : ℤ
  _wasAtOrigin : Bool
  dynamicFootPosition : ℝ × ℝ × ℤ
  _stepEndpoint : ℝ × ℝ
  footPosX : ValueInterpolator
  footPosY : ValueInterpolator

namespace StepPlanner

/-- The `_gaits` array lookup; with the single TROT profile every index
yields the `trotGait` entry. -/
def _gaits (s : StepPlanner) (_g : GaitType) : GaitProfile := s.trotGait

/-- Embeds the `StepPlanner(LegID)` constructor: only `_legID` is set; the
remaining members are uninitialised in C++ and are modelled as zeros (the
source requires `init` to be called before use). -/
def construct (legID : LegID) : StepPlanner :=
  ⟨legID, LegMode.STANDING, GaitType.TROT, 0, ⟨0, 0⟩, 0, false, (0, 0, 0),
   (0, 0), ⟨0, InterpCommand.snapTo 0⟩, ⟨0, InterpCommand.snapTo 0⟩⟩

/-- Embeds `StepPlanner::reset` (src/unnamed/part_000 lines 204-215). -/
def reset (s : StepPlanner) : StepPlanner :=
  { s with dynamicFootPosition := (0, 0, s._robotHeight),
           _wasAtOrigin := false,
           _legMode := LegMode.STANDING,
           _footXYDrop := 0,
           footPosX := s.footPosX.go 0,
           footPosY := s.footPosY.go 0 }

/-- Embeds `StepPlanner::init` (src/unnamed/part_000 lines 10-20). -/
def init (s : StepPlanner) (robotHeight : ℤ) : StepPlanner :=
  reset { s with _legMode := LegMode.STANDING,
                 _gaitType := DEFAULT_GAIT,
                 _robotHeight := robotHeight,
                 trotGait := ⟨50, 140⟩ }

/-- Embeds `StepPlanner::setGait` (src/unnamed/part_000 lines 25-28). -/
def setGait (s : StepPlanner) (gaitType : GaitType) : StepPlanner :=
  if s._legMode = LegMode.STANDING then { s with _gaitType := gaitType }
  else s

/-- Embeds `StepPlanner::getStepHeight` (src/unnamed/part_000 lines
106-123); `lrint` is modelled as `round`. -/
noncomputable def getStepHeight (s : StepPlanner) (footXYDropL : ℤ)
    (legMode : LegMode) : ℤ :=
  let periodHalf : ℝ := ((s._gaits s._gaitType).periodHalf : ℝ)
  let amplitude : ℝ := ((s._gaits s._gaitType).amplitude : ℝ)
  match legMode with
  | LegMode.FIRST_STEP_ARC =>
      s._robotHeight - round ((amplitude / 2) *
        Real.cos (π * ((footXYDropL : ℝ) - periodHalf / 4) / (periodHalf / 2)))
  | LegMode.FIRST_STEP_DRAW_BACK => s._robotHeight - 0
  | LegMode.ACTIVE_WALKING_ARC =>
      s._robotHeight - round (amplitude *
        Real.cos (π * (footXYDropL : ℝ) / periodHalf))
  | LegMode.ACTIVE_WALKING_DRAW_BACK => s._robotHeight - 0
  | LegMode.STANDING => s._robotHeight - 0

/-- The switch statement of `StepPlanner::update` (src/unnamed/part_000
lines 66-93): advance `_footXYDrop` by the gait increment with the sign
chosen by the phase, and transition the phase when the drop reaches
`±periodHalf/2` (the source compares the int16 drop against the float
`periodHalf / 2`). -/
noncomputable def advance (GAIT_POSITION_INCREMENT : ℤ) (periodHalf : ℝ)
    (legMode : LegMode) (footXYDrop : ℤ) : LegMode × ℤ :=
  match legMode with
  | LegMode.FIRST_STEP_ARC =>
      let d := footXYDrop + GAIT_POSITION_INCREMENT
      (if (d : ℝ) = periodHalf / 2 then LegMode.ACTIVE_WALKING_DRAW_BACK
       else LegMode.FIRST_STEP_ARC, d)
  | LegMode.FIRST_STEP_DRAW_BACK =>
      let d := footXYDrop - GAIT_POSITION_INCREMENT
      (if (d : ℝ) = -1 * (periodHalf / 2) then LegMode.ACTIVE_WALKING_ARC
       else LegMode.FIRST_STEP_DRAW_BACK, d)
  | LegMode.ACTIVE_WALKING_ARC =>
      let d := footXYDrop + GAIT_POSITION_INCREMENT
      (if (d : ℝ) = periodHalf / 2 then LegMode.ACTIVE_WALKING_DRAW_BACK
       else LegMode.ACTIVE_WALKING_ARC, d)
  | LegMode.ACTIVE_WALKING_DRAW_BACK =>
      let d := footXYDrop - GAIT_POSITION_INCREMENT
      (if (d : ℝ) = -1 * (periodHalf / 2) then LegMode.ACTIVE_WALKING_ARC
       else LegMode.ACTIVE_WALKING_DRAW_BACK, d)
  | LegMode.STANDING => (LegMode.STANDING, footXYDrop)

/-- Embeds `StepPlanner::update` (src/unnamed/part_000 lines 36-98).
Modelled from the spec: `GAIT_POSITION_INCREMENT` is a fixed constant in
the missing header, modelled as a parameter, and the wall-clock modulo gate
`(millis() - _previousUpdateTime) % TIME_TO_UPDATE == 0` is abstracted into
the `scheduled` flag (the claims speak about scheduled updates). On a
scheduled update the source first negates `dynamicFootPosition.x` for the
mirrored identities and then immediately overwrites all of
`dynamicFootPosition` from the interpolators and `getStepHeight`; both
writes are kept, in source order. -/
noncomputable def update (GAIT_POSITION_INCREMENT : ℤ)
    (robotMode : ROBOT_MODE) (scheduled : Bool) (s : StepPlanner) :
    StepPlanner × Bool :=
  if s._legMode = LegMode.STANDING ∧ robotMode = ROBOT_MODE.WALKING then
    if s._legID = LegID.LEG_1 ∨ s._legID = LegID.LEG_3 then
      ({ s with _legMode := LegMode.FIRST_STEP_ARC, _footXYDrop := 0 }, true)
    else
      ({ s with _legMode := LegMode.FIRST_STEP_DRAW_BACK, _footXYDrop := 0 },
       true)
  else if scheduled then
    let periodHalf : ℝ := ((s._gaits s._gaitType).periodHalf : ℝ)
    let s0 :=
      if s._legID = LegID.LEG_2 ∨ s._legID = LegID.LEG_3 then
        { s with dynamicFootPosition :=
            (-1 * s.dynamicFootPosition.1, s.dynamicFootPosition.2.1,
             s.dynamicFootPosition.2.2) }
      else s
    let s1 := { s0 with dynamicFootPosition :=
        (s0.footPosX.update, s0.footPosY.update,
         getStepHeight s0 s0._footXYDrop s0._legMode) }
    let md := advance GAIT_POSITION_INCREMENT periodHalf s1._legMode
      s1._footXYDrop
    ({ s1 with _legMode := md.1, _footXYDrop := md.2 }, true)
  else (s, false)

/-- Embeds `StepPlanner::setStepEndpoint` (src/unnamed/part_000 lines
131-184). Modelled from the spec: `TIME_TO_UPDATE` and
`GAIT_POSITION_INCREMENT` are fixed constants in the missing header,
modelled as parameters. `movementGradient` is the C integer division
`controlCoordinateY / controlCoordinateX` (truncation toward zero,
`Int.tdiv`) converted to float; the `(long)` cast of the non-negative
completion time is `Int.floor`. -/
noncomputable def setStepEndpoint (TIME_TO_UPDATE GAIT_POSITION_INCREMENT : ℤ)
    (s : StepPlanner) (controlCoordinateX controlCoordinateY : ℤ) :
    StepPlanner :=
  let periodHalf : ℝ := ((s._gaits s._gaitType).periodHalf : ℝ)
  if controlCoordinateX = 0 ∧ controlCoordinateY = 0 then
    { s with _stepEndpoint := (0, 0),
             footPosX := s.footPosX.go 0,
             footPosY := s.footPosY.go 0,
             _legMode := LegMode.STANDING }
  else
    let se : ℝ × ℝ :=
      if controlCoordinateX = 0 then (0, periodHalf / 2)
      else
        let movementGradient : ℝ :=
          ((Int.tdiv controlCoordinateY controlCoordinateX : ℤ) : ℝ)
        ((periodHalf / 2) / Real.sqrt (1 + movementGradient ^ 2),
         ((periodHalf / 2) * |movementGradient|) /
           Real.sqrt (1 + movementGradient ^ 2))
    let se1 : ℝ × ℝ :=
      (if controlCoordinateX < 0 then -se.1 else se.1,
       if controlCoordinateY < 0 then -se.2 else se.2)
    let se2 : ℝ × ℝ :=
      if s._legMode = LegMode.ACTIVE_WALKING_DRAW_BACK ∨
          s._legMode = LegMode.FIRST_STEP_DRAW_BACK then
        (-se1.1, -se1.2)
      else se1
    let endpoint : ℝ × ℝ := (se2.2, se2.1)
    let completionTime : ℤ :=
      ⌊((TIME_TO_UPDATE : ℝ) - 1) *
        (periodHalf / (2 * (GAIT_POSITION_INCREMENT : ℝ)))⌋
    { s with _stepEndpoint := endpoint,
             footPosX := s.footPosX.goTimed endpoint.1 completionTime
               EasingKind.LINEAR RepeatKind.FORTHANDBACK,
             footPosY := s.footPosY.goTimed endpoint.2 completionTime
               EasingKind.LINEAR RepeatKind.FORTHANDBACK }

/-- Embeds `StepPlanner::footAtOrigin` (src/unnamed/part_000 lines
191-199): returns the boolean result together with the updated latch
state. -/
def footAtOrigin (s : StepPlanner) : Bool × StepPlanner :=
  if s._footXYDrop = 0 ∧ s._wasAtOrigin = false then
    (true, { s with _wasAtOrigin := true })
  else if s._footXYDrop ≠ 0 then
    (false, { s with _wasAtOrigin := false })
  else
    (false, s)

end StepPlanner

/-- Modelled from the spec: the reach-length stage as the spec words it —
the Law of Cosines applied to the CLAMPED reach length. The source
(`Kinematics::solveFtShldrLength`) instead applies it to the raw,
unclamped `demandFtShldr`; this definition exists to be compared against
`Kinematics.solveFtShldrLength`. -/
noncomputable def Kinematics.solveFtShldrLengthSpec (c : KinConsts)
    (demandFtShldr : ℝ) : ℝ × ℝ :=
  let clampedLength : ℝ :=
    if demandFtShldr > (c.SHOULDER_FOOT_MAX : ℝ) then (c.SHOULDER_FOOT_MAX : ℝ)
    else if demandFtShldr < (c.SHOULDER_FOOT_MIN : ℝ) then
      (c.SHOULDER_FOOT_MIN : ℝ)
    else demandFtShldr
  let demandAngle3 : ℝ :=
    Real.arccos ((clampedLength ^ 2 - (c.LIMB_2 : ℝ) ^ 2 - (c.LIMB_3 : ℝ) ^ 2) /
      (-2 * (c.LIMB_2 : ℝ) * (c.LIMB_3 : ℝ))) * 180 / π
  let demandAngle2 : ℝ := (180 - demandAngle3) / 2
  (demandAngle2, demandAngle3)

/-- A concrete instantiation of the header constants used to exhibit the
dead clamp in `Kinematics::solveFtShldrLength`: two lower limbs of length
100 and a reach envelope of [50, 150]. -/
def cC1 : KinConsts :=
  ⟨30, 100, 100, 50, 150, 0, 0, 0, 0, 180, 0, 180, 0, 180⟩

/-- C1: the claim says the reach-length stage applies the Law of Cosines to
the CLAMPED reach length. In the source the clamped value
`_demandFtShldrLength` is computed and then never used: the arccos ratio is
formed from the raw input. At reach length 300 (beyond
`SHOULDER_FOOT_MAX = 150`, with `LIMB_2 = LIMB_3 = 100`) the raw ratio is
-7/2, outside arccos's domain (NaN in C float arithmetic; the saturated
value 180° in this real-number embedding), whereas the spec's clamped
stage yields arccos(-1/8)·180/π ≠ 180. The joint-2 half-supplement rule
itself matches the source. -/
theorem C1_law_of_cosines_uses_unclamped_length :
    (Kinematics.solveFtShldrLength cC1 300).2 = 180 ∧
    (Kinematics.solveFtShldrLengthSpec cC1 300).2 ≠
      (Kinematics.solveFtShldrLength cC1 300).2 := by
  have hcode : (Kinematics.solveFtShldrLength cC1 300).2 =
      Real.arccos (((300 : ℝ) ^ 2 - 100 ^ 2 - 100 ^ 2) / (-2 * 100 * 100)) *
        180 / π := by
    simp only [Kinematics.solveFtShldrLength, cC1]
    norm_num
  have harg : ((300 : ℝ) ^ 2 - 100 ^ 2 - 100 ^ 2) / (-2 * 100 * 100) =
      -7 / 2 := by norm_num
  have hpi : Real.arccos (-7 / 2) = π :=
    Real.arccos_eq_pi.mpr (by norm_num)
  have hcode180 : (Kinematics.solveFtShldrLength cC1 300).2 = 180 := by
    rw [hcode, harg, hpi, mul_comm, mul_div_assoc, div_self Real.pi_ne_zero,
      mul_one]
  refine ⟨hcode180, ?_⟩
  have hspec : (Kinematics.solveFtShldrLengthSpec cC1 300).2 =
      Real.arccos (((150 : ℝ) ^ 2 - 100 ^ 2 - 100 ^ 2) / (-2 * 100 * 100)) *
        180 / π := by
    simp only [Kinematics.solveFtShldrLengthSpec, cC1]
    norm_num
  have hargs : ((150 : ℝ) ^ 2 - 100 ^ 2 - 100 ^ 2) / (-2 * 100 * 100) =
      -1 / 8 := by norm_num
  rw [hspec, hargs, hcode180]
  intro heq
  have hne : Real.arccos (-1 / 8) = π := by
    have h180 : Real.arccos (-1 / 8) * 180 = 180 * π := by
      have := (div_eq_iff Real.pi_ne_zero).mp heq
      linarith [this]
    linarith [h180]
  have := Real.arccos_eq_pi.mp hne
  norm_num at this

/-- The divisor of the arctan ratio `inputY / inputZ` in
`Kinematics::solveYMove`: the raw z input, with no zero guard in the
source. -/
def Kinematics.solveYMove_thetaDivisor (inputZ : ℤ) : ℤ := inputZ

/-- The divisor of the arccos ratio `LIMB_1 / demandFtShldrLength` in
`Kinematics::solveYMove`: the y-z-plane foot-shoulder distance. -/
noncomputable def Kinematics.solveYMove_alphaDivisor (inputY inputZ : ℤ) : ℝ :=
  Real.sqrt ((|inputZ| : ℝ) ^ 2 + (|inputY| : ℝ) ^ 2)

/-- The divisor of the arctan ratio in `Kinematics::solveXMove`, after the
`inputZ == 0 → 1` guard of the source (the source divides by
`abs(inputZ)`). -/
def Kinematics.solveXMove_divisor (inputZraw : ℤ) : ℤ :=
  |if inputZraw = 0 then 1 else inputZraw|

/-- The Law-of-Cosines divisor in `Kinematics::solveFtShldrLength`. -/
def Kinematics.solveFtShldrLength_divisor (c : KinConsts) : ℤ :=
  -2 * c.LIMB_2 * c.LIMB_3

/-- The claim's predicate for input `(x, y, z)`: every division performed
across the three solver stages of `Kinematics::solveFootPosition` has a
nonzero divisor. The x-stage divisor receives the truncated
`yPlaneZOutput`, as in the source call chain. -/
noncomputable def Kinematics.noDivisionByZero (c : KinConsts)
    (inputY inputZ : ℤ) : Prop :=
  Kinematics.solveYMove_thetaDivisor inputZ ≠ 0 ∧
  Kinematics.solveYMove_alphaDivisor inputY inputZ ≠ 0 ∧
  Kinematics.solveXMove_divisor ⌊(Kinematics.solveYMove c inputY inputZ).2⌋ ≠ 0 ∧
  Kinematics.solveFtShldrLength_divisor c ≠ 0

/-- A concrete instantiation of the header constants for the C6
counterexample. -/
def cC6 : KinConsts :=
  ⟨30, 100, 100, 50, 150, 0, 0, 0, 0, 180, 0, 180, 0, 180⟩

/-- C6 counterexample: the claim asserts that for z = 0 the zero divisor is
replaced by the sentinel 1 so that no stage divides by zero. But the guard
exists only in `solveXMove`; `solveYMove` divides `inputY` by the raw
`inputZ`, so at input y = 5, z = 0 its arctan divisor is exactly 0 and the
claimed predicate fails. -/
theorem C6_counterexample : ¬ Kinematics.noDivisionByZero cC6 5 0 := by
  intro h
  exact h.1 rfl

/-- C6 amended: the sentinel substitution applies only to `solveXMove`'s
z-argument (the truncated `yPlaneZOutput`, not the raw z input): its
divisor is never 0 and equals 1 exactly when that argument is 0. The
Law-of-Cosines divisor is nonzero whenever both lower limb lengths are
nonzero. `solveYMove`, by contrast, divides by the raw z unguarded (its
divisor IS the raw z, hence zero at z = 0; in C float arithmetic this
yields an infinity absorbed by atan, not a crash). -/
theorem C6_division_guard_only_in_solveXMove (c : KinConsts) (z : ℤ)
    (h2 : c.LIMB_2 ≠ 0) (h3 : c.LIMB_3 ≠ 0) :
    Kinematics.solveXMove_divisor z ≠ 0 ∧
    (z = 0 → Kinematics.solveXMove_divisor z = 1) ∧
    Kinematics.solveFtShldrLength_divisor c ≠ 0 ∧
    Kinematics.solveYMove_thetaDivisor z = z := by
  refine ⟨?_, ?_, ?_, rfl⟩
  · unfold Kinematics.solveXMove_divisor
    rcases eq_or_ne z 0 with hz | hz
    · simp [hz]
    · simp [hz, abs_eq_zero]
  · intro hz
    simp [Kinematics.solveXMove_divisor, hz]
  · unfold Kinematics.solveFtShldrLength_divisor
    exact mul_ne_zero (mul_ne_zero (by norm_num) h2) h3

/-- C6 witness: the amended statement evaluated at the concrete constants
`cC6` and z = 0. -/
theorem C6_division_guard_witness :
    cC6.LIMB_2 ≠ 0 ∧ cC6.LIMB_3 ≠ 0 ∧
    (Kinematics.solveXMove_divisor 0 ≠ 0 ∧
     ((0 : ℤ) = 0 → Kinematics.solveXMove_divisor 0 = 1) ∧
     Kinematics.solveFtShldrLength_divisor cC6 ≠ 0 ∧
     Kinematics.solveYMove_thetaDivisor 0 = 0) :=
  ⟨by decide, by decide,
   C6_division_guard_only_in_solveXMove cC6 0 (by decide) (by decide)⟩

/-- C7: the actuator command unit computed by `Kinematics::_degreesToMicros`
is the affine map `K × degrees + 500 + calibrationOffset` (exact: the
uint16 narrowing does not wrap under the stated bound on K), and the
encoding is monotonically non-decreasing in the angle. -/
theorem C7_degrees_to_micros_affine (K d calib : ℕ) (hd : d ≤ 255)
    (hc : calib ≤ 255) (hK : K * 255 + 755 ≤ 65535) :
    Kinematics._degreesToMicros K d calib = K * d + 500 + calib ∧
    ∀ d1 d2 : ℕ, d1 ≤ d2 → d2 ≤ 255 →
      Kinematics._degreesToMicros K d1 calib ≤
        Kinematics._degreesToMicros K d2 calib := by
  have bound : ∀ e : ℕ, e ≤ 255 →
      Kinematics._degreesToMicros K e calib = K * e + 500 + calib := by
    intro e he
    unfold Kinematics._degreesToMicros
    apply Nat.mod_eq_of_lt
    have h1 : K * e ≤ K * 255 := Nat.mul_le_mul_left K he
    omega
  refine ⟨bound d hd, ?_⟩
  intro d1 d2 h12 h2
  rw [bound d1 (le_trans h12 h2), bound d2 h2]
  have h1 : K * d1 ≤ K * d2 := Nat.mul_le_mul_left K h12
  omega

/-- C7 witness: the encoding evaluated with K = 11, angle 90, calibration
offset 3. -/
theorem C7_degrees_to_micros_affine_witness :
    (90 : ℕ) ≤ 255 ∧ (3 : ℕ) ≤ 255 ∧ 11 * 255 + 755 ≤ 65535 ∧
    (Kinematics._degreesToMicros 11 90 3 = 11 * 90 + 500 + 3 ∧
     ∀ d1 d2 : ℕ, d1 ≤ d2 → d2 ≤ 255 →
       Kinematics._degreesToMicros 11 d1 3 ≤
         Kinematics._degreesToMicros 11 d2 3) :=
  ⟨by decide, by decide, by decide,
   C7_degrees_to_micros_affine 11 90 3 (by decide) (by decide) (by decide)⟩

/-- Motor 1 branch of `_applyConstraints` always lands in
`[M1_MIN, M1_MAX]` when that interval is nonempty. -/
lemma applyConstraints_one_bounds (c : KinConsts) (h : c.M1_MIN ≤ c.M1_MAX)
    (d : ℤ) :
    c.M1_MIN ≤ (Kinematics._applyConstraints c 1 d).getD 0 ∧
      (Kinematics._applyConstraints c 1 d).getD 0 ≤ c.M1_MAX := by
  simp only [Kinematics._applyConstraints, if_pos]
  simp only [Option.getD_some]
  split_ifs <;> omega

/-- Motor 2 branch of `_applyConstraints` always lands in
`[M2_MIN, M2_MAX]` when that interval is nonempty. -/
lemma applyConstraints_two_bounds (c : KinConsts) (h : c.M2_MIN ≤ c.M2_MAX)
    (d : ℤ) :
    c.M2_MIN ≤ (Kinematics._applyConstraints c 2 d).getD 0 ∧
      (Kinematics._applyConstraints c 2 d).getD 0 ≤ c.M2_MAX := by
  have e : Kinematics._applyConstraints c 2 d =
      some (if d > c.M2_MAX then c.M2_MAX
        else if d < c.M2_MIN then c.M2_MIN else d) := rfl
  rw [e, Option.getD_some]
  split_ifs <;> omega

/-- Motor 3 branch of `_applyConstraints` always lands in
`[M3_MIN, M3_MAX]` when that interval is nonempty. -/
lemma applyConstraints_three_bounds (c : KinConsts) (h : c.M3_MIN ≤ c.M3_MAX)
    (d : ℤ) :
    c.M3_MIN ≤ (Kinematics._applyConstraints c 3 d).getD 0 ∧
      (Kinematics._applyConstraints c 3 d).getD 0 ≤ c.M3_MAX := by
  have e : Kinematics._applyConstraints c 3 d =
      some (if d > c.M3_MAX then c.M3_MAX
        else if d < c.M3_MIN then c.M3_MIN else d) := rfl
  rw [e, Option.getD_some]
  split_ifs <;> omega

/-- `solveFootPosition` unfolded to its three clamped components. -/
lemma solveFootPosition_eq (c : KinConsts) (x y z : ℤ) :
    Kinematics.solveFootPosition c x y z =
      ((Kinematics._applyConstraints c 1
          (round (Kinematics.solveYMove c y z).1 + c.M1_OFFSET)).getD 0,
       (Kinematics._applyConstraints c 2
          (round ((Kinematics.solveXMove c x
              ⌊(Kinematics.solveYMove c y z).2⌋).1 +
            (Kinematics.solveFtShldrLength c
              (Kinematics.solveXMove c x
                ⌊(Kinematics.solveYMove c y z).2⌋).2).1) + c.M2_OFFSET)).getD 0,
       (Kinematics._applyConstraints c 3
          ((c.M3_OFFSET - round (Kinematics.solveFtShldrLength c
              (Kinematics.solveXMove c x
                ⌊(Kinematics.solveYMove c y z).2⌋).2).2) +
            c.M3_OFFSET)).getD 0) := rfl

/-- C4: for every integer input (x, y, z) — in particular every
out-of-envelope one — each of the three angles written by
`solveFootPosition` lies within its joint's configured [min, max] range:
the stored values are exactly the outputs of the terminal
`_applyConstraints` clamp, so no unclamped angle reaches the motor
outputs. (Stated in the real-number embedding of the float solver, where
every stage is total.) -/
theorem C4_angle_clamp_totality (c : KinConsts) (h1 : c.M1_MIN ≤ c.M1_MAX)
    (h2 : c.M2_MIN ≤ c.M2_MAX) (h3 : c.M3_MIN ≤ c.M3_MAX) (x y z : ℤ) :
    c.M1_MIN ≤ (Kinematics.solveFootPosition c x y z).1 ∧
    (Kinematics.solveFootPosition c x y z).1 ≤ c.M1_MAX ∧
    c.M2_MIN ≤ (Kinematics.solveFootPosition c x y z).2.1 ∧
    (Kinematics.solveFootPosition c x y z).2.1 ≤ c.M2_MAX ∧
    c.M3_MIN ≤ (Kinematics.solveFootPosition c x y z).2.2 ∧
    (Kinematics.solveFootPosition c x y z).2.2 ≤ c.M3_MAX := by
  rw [solveFootPosition_eq]
  exact ⟨(applyConstraints_one_bounds c h1 _).1,
    (applyConstraints_one_bounds c h1 _).2,
    (applyConstraints_two_bounds c h2 _).1,
    (applyConstraints_two_bounds c h2 _).2,
    (applyConstraints_three_bounds c h3 _).1,
    (applyConstraints_three_bounds c h3 _).2⟩

/-- A concrete instantiation of the header constants for the C4 witness. -/
def cC4 : KinConsts :=
  ⟨30, 100, 100, 50, 150, 0, 45, 45, 0, 180, 0, 180, 0, 180⟩

/-- C4 witness: the clamp totality evaluated at the concrete constants
`cC4` on the far out-of-envelope input (400, -300, 0). -/
theorem C4_angle_clamp_totality_witness :
    cC4.M1_MIN ≤ cC4.M1_MAX ∧ cC4.M2_MIN ≤ cC4.M2_MAX ∧
    cC4.M3_MIN ≤ cC4.M3_MAX ∧
    (cC4.M1_MIN ≤ (Kinematics.solveFootPosition cC4 400 (-300) 0).1 ∧
     (Kinematics.solveFootPosition cC4 400 (-300) 0).1 ≤ cC4.M1_MAX ∧
     cC4.M2_MIN ≤ (Kinematics.solveFootPosition cC4 400 (-300) 0).2.1 ∧
     (Kinematics.solveFootPosition cC4 400 (-300) 0).2.1 ≤ cC4.M2_MAX ∧
     cC4.M3_MIN ≤ (Kinematics.solveFootPosition cC4 400 (-300) 0).2.2 ∧
     (Kinematics.solveFootPosition cC4 400 (-300) 0).2.2 ≤ cC4.M3_MAX) :=
  ⟨by decide, by decide, by decide,
   C4_angle_clamp_totality cC4 (by decide) (by decide) (by decide)
     400 (-300) 0⟩


/-- `setFootEndpoint` when some solved target differs from the previous
targets: previous targets are overwritten and the command triple is
issued. -/
lemma setFootEndpoint_changed_eq (c : KinConsts) (MSI : ℕ) (s : Kinematics)
    (x y z : ℤ)
    (h : s.motor1.previousDegrees ≠ (Kinematics.solveFootPosition c x y z).1 ∨
      s.motor2.previousDegrees ≠ (Kinematics.solveFootPosition c x y z).2.1 ∨
      s.motor3.previousDegrees ≠ (Kinematics.solveFootPosition c x y z).2.2) :
    Kinematics.setFootEndpoint c MSI s x y z =
      (⟨⟨(Kinematics.solveFootPosition c x y z).1,
          (Kinematics.solveFootPosition c x y z).1⟩,
        ⟨(Kinematics.solveFootPosition c x y z).2.1,
          (Kinematics.solveFootPosition c x y z).2.1⟩,
        ⟨(Kinematics.solveFootPosition c x y z).2.2,
          (Kinematics.solveFootPosition c x y z).2.2⟩⟩,
       some
        (⟨x, MSI * max (max ((Kinematics.solveFootPosition c x y z).1 -
                s.motor1.previousDegrees).natAbs
              (((Kinematics.solveFootPosition c x y z).2.1 -
                s.motor2.previousDegrees).natAbs))
            (((Kinematics.solveFootPosition c x y z).2.2 -
              s.motor3.previousDegrees).natAbs),
          EasingKind.LINEAR, RepeatKind.ONCEFORWARD⟩,
         ⟨y, MSI * max (max ((Kinematics.solveFootPosition c x y z).1 -
                s.motor1.previousDegrees).natAbs
              (((Kinematics.solveFootPosition c x y z).2.1 -
                s.motor2.previousDegrees).natAbs))
            (((Kinematics.solveFootPosition c x y z).2.2 -
              s.motor3.previousDegrees).natAbs),
          EasingKind.LINEAR, RepeatKind.ONCEFORWARD⟩,
         ⟨z, MSI * max (max ((Kinematics.solveFootPosition c x y z).1 -
                s.motor1.previousDegrees).natAbs
              (((Kinematics.solveFootPosition c x y z).2.1 -
                s.motor2.previousDegrees).natAbs))
            (((Kinematics.solveFootPosition c x y z).2.2 -
              s.motor3.previousDegrees).natAbs),
          EasingKind.LINEAR, RepeatKind.ONCEFORWARD⟩)) := by
  simp only [Kinematics.setFootEndpoint, if_pos h]

/-- `setFootEndpoint` when no solved target changed: previous targets are
kept and no command is issued. -/
lemma setFootEndpoint_unchanged_eq (c : KinConsts) (MSI : ℕ) (s : Kinematics)
    (x y z : ℤ)
    (h : ¬(s.motor1.previousDegrees ≠
        (Kinematics.solveFootPosition c x y z).1 ∨
      s.motor2.previousDegrees ≠ (Kinematics.solveFootPosition c x y z).2.1 ∨
      s.motor3.previousDegrees ≠
        (Kinematics.solveFootPosition c x y z).2.2)) :
    Kinematics.setFootEndpoint c MSI s x y z =
      (⟨⟨(Kinematics.solveFootPosition c x y z).1, s.motor1.previousDegrees⟩,
        ⟨(Kinematics.solveFootPosition c x y z).2.1,
          s.motor2.previousDegrees⟩,
        ⟨(Kinematics.solveFootPosition c x y z).2.2,
          s.motor3.previousDegrees⟩⟩, none) := by
  simp only [Kinematics.setFootEndpoint, if_neg h]

/-- C8: `setFootEndpoint` issues its (single, shared-duration) triple of
interpolator commands iff at least one newly solved joint target angle
differs from the previous targets — equivalently, it issues none iff all
three are unchanged; every issued command carries duration
`MAX_SPEED_INVERSE × (largest single-joint angle delta)`, linear easing and
once-forward repeat; and an immediate second call with the same (x, y, z)
never issues a command. -/
theorem C8_setFootEndpoint_command_iff (c : KinConsts) (MSI : ℕ)
    (s : Kinematics) (x y z : ℤ) :
    ((Kinematics.setFootEndpoint c MSI s x y z).2 = none ↔
      (s.motor1.previousDegrees = (Kinematics.solveFootPosition c x y z).1 ∧
       s.motor2.previousDegrees = (Kinematics.solveFootPosition c x y z).2.1 ∧
       s.motor3.previousDegrees =
         (Kinematics.solveFootPosition c x y z).2.2)) ∧
    (∀ t1 t2 t3 : Kinematics.KinInterpCmd,
      (Kinematics.setFootEndpoint c MSI s x y z).2 = some (t1, t2, t3) →
        t1.duration = MSI *
          max (max ((Kinematics.solveFootPosition c x y z).1 -
                s.motor1.previousDegrees).natAbs
              (((Kinematics.solveFootPosition c x y z).2.1 -
                s.motor2.previousDegrees).natAbs))
            (((Kinematics.solveFootPosition c x y z).2.2 -
              s.motor3.previousDegrees).natAbs) ∧
        t2.duration = t1.duration ∧ t3.duration = t1.duration ∧
        t1.easing = EasingKind.LINEAR ∧ t2.easing = EasingKind.LINEAR ∧
        t3.easing = EasingKind.LINEAR ∧
        t1.repeatMode = RepeatKind.ONCEFORWARD ∧
        t2.repeatMode = RepeatKind.ONCEFORWARD ∧
        t3.repeatMode = RepeatKind.ONCEFORWARD) ∧
    (Kinematics.setFootEndpoint c MSI
      (Kinematics.setFootEndpoint c MSI s x y z).1 x y z).2 = none := by
  by_cases hcond : s.motor1.previousDegrees ≠
      (Kinematics.solveFootPosition c x y z).1 ∨
      s.motor2.previousDegrees ≠ (Kinematics.solveFootPosition c x y z).2.1 ∨
      s.motor3.previousDegrees ≠ (Kinematics.solveFootPosition c x y z).2.2
  · rw [setFootEndpoint_changed_eq c MSI s x y z hcond]
    refine ⟨?_, ?_, ?_⟩
    · constructor
      · intro h
        exact absurd h (by simp)
      · intro h
        exact absurd hcond (by push_neg; exact h)
    · intro t1 t2 t3 hsome
      simp only [Option.some.injEq, Prod.mk.injEq] at hsome
      obtain ⟨e1, e2, e3⟩ := hsome
      subst e1; subst e2; subst e3
      exact ⟨rfl, rfl, rfl, rfl, rfl, rfl, rfl, rfl, rfl⟩
    · rw [setFootEndpoint_unchanged_eq]
      push_neg
      exact ⟨rfl, rfl, rfl⟩
  · push_neg at hcond
    rw [setFootEndpoint_unchanged_eq c MSI s x y z (by push_neg; exact hcond)]
    refine ⟨?_, ?_, ?_⟩
    · simpa using hcond
    · intro t1 t2 t3 hsome
      exact absurd hsome (by simp)
    · rw [setFootEndpoint_unchanged_eq]
      push_neg
      exact ⟨hcond.1, hcond.2.1, hcond.2.2⟩

/-- A call to `footAtOrigin` while the drop is nonzero returns false and
clears the latch. -/
lemma footAtOrigin_nonzero_eq (s : StepPlanner) (hd : s._footXYDrop ≠ 0) :
    StepPlanner.footAtOrigin s = (false, { s with _wasAtOrigin := false }) := by
  rw [StepPlanner.footAtOrigin, if_neg, if_pos hd]
  intro hc
  exact hd hc.1

/-- C9: the origin edge-detector. After any call made while `footDrop` is
nonzero (which disarms the latch), the first call made once `footDrop` is 0
returns true; a call made while `footDrop` is 0 makes the immediately
following call (drop still 0) return false, so it is never true twice in a
row at zero; and the nonzero call itself returns false while re-arming the
latch. -/
theorem C9_foot_at_origin_latch (s : StepPlanner) (d : ℤ) (hd : d ≠ 0) :
    (StepPlanner.footAtOrigin
      { (StepPlanner.footAtOrigin { s with _footXYDrop := d }).2 with
        _footXYDrop := 0 }).1 = true ∧
    (∀ s0 : StepPlanner, s0._footXYDrop = 0 →
      (StepPlanner.footAtOrigin (StepPlanner.footAtOrigin s0).2).1 = false) ∧
    (StepPlanner.footAtOrigin { s with _footXYDrop := d }).1 = false ∧
    (StepPlanner.footAtOrigin { s with _footXYDrop := d }).2._wasAtOrigin =
      false := by
  have h1 : StepPlanner.footAtOrigin { s with _footXYDrop := d } =
      (false, { s with _footXYDrop := d, _wasAtOrigin := false }) :=
    footAtOrigin_nonzero_eq { s with _footXYDrop := d } hd
  refine ⟨?_, ?_, ?_, ?_⟩
  · rw [h1]
    rw [StepPlanner.footAtOrigin, if_pos]
    exact ⟨rfl, rfl⟩
  · intro s0 h0
    by_cases hw : s0._wasAtOrigin = false
    · have e1 : StepPlanner.footAtOrigin s0 =
          (true, { s0 with _wasAtOrigin := true }) := by
        rw [StepPlanner.footAtOrigin, if_pos ⟨h0, hw⟩]
      rw [e1, StepPlanner.footAtOrigin, if_neg, if_neg]
      · simpa using h0
      · intro hc
        simp at hc
    · have hw' : s0._wasAtOrigin = true := by
        cases hb : s0._wasAtOrigin
        · exact absurd hb hw
        · rfl
      have e1 : StepPlanner.footAtOrigin s0 = (false, s0) := by
        rw [StepPlanner.footAtOrigin, if_neg, if_neg]
        · simpa using h0
        · intro hc
          rw [hw'] at hc
          simp at hc
      rw [e1, StepPlanner.footAtOrigin, if_neg, if_neg]
      · simpa using h0
      · intro hc
        rw [hw'] at hc
        simp at hc
  · rw [h1]
  · rw [h1]

/-- A concrete planner state used by witnesses: a leg mid-walk with its x
interpolator currently reporting 70. -/
def sC3 : StepPlanner :=
  ⟨LegID.LEG_1, LegMode.ACTIVE_WALKING_ARC, GaitType.TROT, 120, ⟨50, 140⟩, 0,
   false, (0, 0, 120), (0, 0), ⟨70, InterpCommand.snapTo 70⟩,
   ⟨0, InterpCommand.snapTo 0⟩⟩

/-- C9 witness: the latch behaviour evaluated at the concrete state `sC3`
with nonzero drop 5. -/
theorem C9_foot_at_origin_latch_witness :
    (5 : ℤ) ≠ 0 ∧
    ((StepPlanner.footAtOrigin
      { (StepPlanner.footAtOrigin { sC3 with _footXYDrop := 5 }).2 with
        _footXYDrop := 0 }).1 = true ∧
    (∀ s0 : StepPlanner, s0._footXYDrop = 0 →
      (StepPlanner.footAtOrigin (StepPlanner.footAtOrigin s0).2).1 = false) ∧
    (StepPlanner.footAtOrigin { sC3 with _footXYDrop := 5 }).1 = false ∧
    (StepPlanner.footAtOrigin { sC3 with _footXYDrop := 5 }).2._wasAtOrigin =
      false) :=
  ⟨by decide, C9_foot_at_origin_latch sC3 5 (by decide)⟩

/-- C10: on any non-zero control vector, `setStepEndpoint` changes only the
stored step endpoint and the two axis interpolators: the gait phase, the
foot-drop accumulator, the gait type, the robot height, the origin latch,
the cached dynamic foot position, the leg identity and the gait profile are
all unchanged. -/
theorem C10_setStepEndpoint_frame (TIME_TO_UPDATE GAIT_POSITION_INCREMENT : ℤ)
    (s : StepPlanner) (cx cy : ℤ) (h : ¬(cx = 0 ∧ cy = 0)) :
    (StepPlanner.setStepEndpoint TIME_TO_UPDATE GAIT_POSITION_INCREMENT
        s cx cy)._legMode = s._legMode ∧
    (StepPlanner.setStepEndpoint TIME_TO_UPDATE GAIT_POSITION_INCREMENT
        s cx cy)._footXYDrop = s._footXYDrop ∧
    (StepPlanner.setStepEndpoint TIME_TO_UPDATE GAIT_POSITION_INCREMENT
        s cx cy)._gaitType = s._gaitType ∧
    (StepPlanner.setStepEndpoint TIME_TO_UPDATE GAIT_POSITION_INCREMENT
        s cx cy)._robotHeight = s._robotHeight ∧
    (StepPlanner.setStepEndpoint TIME_TO_UPDATE GAIT_POSITION_INCREMENT
        s cx cy)._wasAtOrigin = s._wasAtOrigin ∧
    (StepPlanner.setStepEndpoint TIME_TO_UPDATE GAIT_POSITION_INCREMENT
        s cx cy).dynamicFootPosition = s.dynamicFootPosition ∧
    (StepPlanner.setStepEndpoint TIME_TO_UPDATE GAIT_POSITION_INCREMENT
        s cx cy)._legID = s._legID ∧
    (StepPlanner.setStepEndpoint TIME_TO_UPDATE GAIT_POSITION_INCREMENT
        s cx cy).trotGait = s.trotGait := by
  simp only [StepPlanner.setStepEndpoint, if_neg h]
  simp

/-- C10 witness: the frame property evaluated at the concrete state `sC3`
and the non-zero control vector (50, 0). -/
theorem C10_setStepEndpoint_frame_witness :
    ¬((50 : ℤ) = 0 ∧ (0 : ℤ) = 0) ∧
    ((StepPlanner.setStepEndpoint 10 5 sC3 50 0)._legMode = sC3._legMode ∧
     (StepPlanner.setStepEndpoint 10 5 sC3 50 0)._footXYDrop =
       sC3._footXYDrop ∧
     (StepPlanner.setStepEndpoint 10 5 sC3 50 0)._gaitType = sC3._gaitType ∧
     (StepPlanner.setStepEndpoint 10 5 sC3 50 0)._robotHeight =
       sC3._robotHeight ∧
     (StepPlanner.setStepEndpoint 10 5 sC3 50 0)._wasAtOrigin =
       sC3._wasAtOrigin ∧
     (StepPlanner.setStepEndpoint 10 5 sC3 50 0).dynamicFootPosition =
       sC3.dynamicFootPosition ∧
     (StepPlanner.setStepEndpoint 10 5 sC3 50 0)._legID = sC3._legID ∧
     (StepPlanner.setStepEndpoint 10 5 sC3 50 0).trotGait = sC3.trotGait) :=
  ⟨by decide, C10_setStepEndpoint_frame 10 5 sC3 50 0 (by decide)⟩

/-- Concrete constants and solver state for the C8 witness. -/
def cC8 : KinConsts :=
  ⟨30, 100, 100, 50, 150, 0, 45, 45, 0, 180, 0, 180, 0, 180⟩

/-- Solver state for the C8 witness, with the constructor's sentinel 360 as
the previous target of each motor. -/
def sC8 : Kinematics := ⟨⟨0, 360⟩, ⟨0, 360⟩, ⟨0, 360⟩⟩

/-- C8 witness: the second of two identical `setFootEndpoint` calls issues
no command, evaluated at the concrete state `sC8` and input (0, 40, 120). -/
theorem C8_setFootEndpoint_command_iff_witness :
    (Kinematics.setFootEndpoint cC8 10
      (Kinematics.setFootEndpoint cC8 10 sC8 0 40 120).1 0 40 120).2 =
      none :=
  (C8_setFootEndpoint_command_iff cC8 10 sC8 0 40 120).2.2

/-- C3: in a scheduled `update` outside `Standing`, the x component of the
cached foot position is overwritten by the x-axis interpolator sample for
every leg identity: the mirrored identities LEG_2/LEG_3 produce exactly the
same x output as LEG_1/LEG_4 in the same phase with identical state,
because the `dynamicFootPosition.x *= -1` mirroring write is immediately
overwritten. In particular the output is never the negation of the
non-mirrored output unless the sample is 0. -/
theorem C3_mirrored_x_is_overwritten (GAIT_POSITION_INCREMENT : ℤ)
    (robotMode : ROBOT_MODE) (s : StepPlanner)
    (h : s._legMode ≠ LegMode.STANDING) :
    ((StepPlanner.update GAIT_POSITION_INCREMENT robotMode true
        { s with _legID := LegID.LEG_2 }).1.dynamicFootPosition.1 =
      (StepPlanner.update GAIT_POSITION_INCREMENT robotMode true
        { s with _legID := LegID.LEG_1 }).1.dynamicFootPosition.1) ∧
    (StepPlanner.update GAIT_POSITION_INCREMENT robotMode true
        { s with _legID := LegID.LEG_1 }).1.dynamicFootPosition.1 =
      s.footPosX.val ∧
    (s.footPosX.val ≠ 0 →
      (StepPlanner.update GAIT_POSITION_INCREMENT robotMode true
          { s with _legID := LegID.LEG_2 }).1.dynamicFootPosition.1 ≠
        -(StepPlanner.update GAIT_POSITION_INCREMENT robotMode true
            { s with _legID := LegID.LEG_1 }).1.dynamicFootPosition.1) := by
  have hc : ∀ legID : LegID,
      ¬({ s with _legID := legID }._legMode = LegMode.STANDING ∧
        robotMode = ROBOT_MODE.WALKING) := by
    intro legID hcontra
    exact h hcontra.1
  have e2 : (StepPlanner.update GAIT_POSITION_INCREMENT robotMode true
      { s with _legID := LegID.LEG_2 }).1.dynamicFootPosition.1 =
      s.footPosX.val := by
    simp only [StepPlanner.update, if_neg (hc LegID.LEG_2)]
    rfl
  have e1 : (StepPlanner.update GAIT_POSITION_INCREMENT robotMode true
      { s with _legID := LegID.LEG_1 }).1.dynamicFootPosition.1 =
      s.footPosX.val := by
    simp only [StepPlanner.update, if_neg (hc LegID.LEG_1)]
    rfl
  refine ⟨e2.trans e1.symm, e1, ?_⟩
  intro hval hneg
  rw [e2, e1] at hneg
  have : s.footPosX.val = 0 := by linarith [hneg]
  exact hval this

/-- C3 witness: the dead-mirroring equality evaluated at the concrete state
`sC3` (x interpolator at 70), comparing LEG_2 against LEG_1. -/
theorem C3_mirrored_x_is_overwritten_witness :
    sC3._legMode ≠ LegMode.STANDING ∧
    (((StepPlanner.update 5 ROBOT_MODE.WALKING true
        { sC3 with _legID := LegID.LEG_2 }).1.dynamicFootPosition.1 =
      (StepPlanner.update 5 ROBOT_MODE.WALKING true
        { sC3 with _legID := LegID.LEG_1 }).1.dynamicFootPosition.1) ∧
    (StepPlanner.update 5 ROBOT_MODE.WALKING true
        { sC3 with _legID := LegID.LEG_1 }).1.dynamicFootPosition.1 =
      sC3.footPosX.val ∧
    (sC3.footPosX.val ≠ 0 →
      (StepPlanner.update 5 ROBOT_MODE.WALKING true
          { sC3 with _legID := LegID.LEG_2 }).1.dynamicFootPosition.1 ≠
        -(StepPlanner.update 5 ROBOT_MODE.WALKING true
            { sC3 with _legID := LegID.LEG_1 }).1.dynamicFootPosition.1)) :=
  ⟨by decide, C3_mirrored_x_is_overwritten 5 ROBOT_MODE.WALKING sC3 (by decide)⟩

/-- The walking trajectory of one leg: state after the first `update` call
(which performs the Standing → first-step transition) followed by `n`
further scheduled updates, all with robot mode WALKING. -/
noncomputable def walkSeq (GAIT_POSITION_INCREMENT : ℤ) (legID : LegID)
    (robotHeight : ℤ) : ℕ → StepPlanner
  | 0 => (StepPlanner.update GAIT_POSITION_INCREMENT ROBOT_MODE.WALKING true
      (StepPlanner.init (StepPlanner.construct legID) robotHeight)).1
  | n + 1 => (StepPlanner.update GAIT_POSITION_INCREMENT ROBOT_MODE.WALKING
      true (walkSeq GAIT_POSITION_INCREMENT legID robotHeight n)).1

/-- Invariant of the walking state machine: the TROT profile is the one
fixed by `init`, the drop is a multiple of the increment, and each phase
confines the drop to its half-period window (`periodHalf/2 = 70`). -/
def WalkInv (GAIT_POSITION_INCREMENT : ℤ) (s : StepPlanner) : Prop :=
  s.trotGait.periodHalf = 140 ∧
  GAIT_POSITION_INCREMENT ∣ s._footXYDrop ∧
  ((s._legMode = LegMode.FIRST_STEP_ARC ∧ 0 ≤ s._footXYDrop ∧
      s._footXYDrop < 70) ∨
   (s._legMode = LegMode.FIRST_STEP_DRAW_BACK ∧ -70 < s._footXYDrop ∧
      s._footXYDrop ≤ 0) ∨
   (s._legMode = LegMode.ACTIVE_WALKING_ARC ∧ -70 ≤ s._footXYDrop ∧
      s._footXYDrop < 70) ∨
   (s._legMode = LegMode.ACTIVE_WALKING_DRAW_BACK ∧ -70 < s._footXYDrop ∧
      s._footXYDrop ≤ 70))

/-- Stepping from a multiple of the increment strictly below a multiple
bound cannot overshoot the bound. -/
lemma dvd_add_le (inc a b : ℤ) (h0 : 0 < inc) (ha : inc ∣ a) (hb : inc ∣ b)
    (hab : a < b) : a + inc ≤ b := by
  obtain ⟨k, rfl⟩ := ha
  obtain ⟨m, rfl⟩ := hb
  have hk : k < m := lt_of_mul_lt_mul_left hab (le_of_lt h0)
  calc inc * k + inc = inc * (k + 1) := by ring
    _ ≤ inc * m := mul_le_mul_of_nonneg_left (by omega) (le_of_lt h0)

/-- A scheduled WALKING `update` outside Standing: the phase and drop are
produced by `advance`, and the profile fields are untouched. -/
lemma update_walk_eq (inc : ℤ) (s : StepPlanner)
    (h : s._legMode ≠ LegMode.STANDING) :
    (StepPlanner.update inc ROBOT_MODE.WALKING true s).1._legMode =
      (StepPlanner.advance inc (((s._gaits s._gaitType).periodHalf : ℤ) : ℝ)
        s._legMode s._footXYDrop).1 ∧
    (StepPlanner.update inc ROBOT_MODE.WALKING true s).1._footXYDrop =
      (StepPlanner.advance inc (((s._gaits s._gaitType).periodHalf : ℤ) : ℝ)
        s._legMode s._footXYDrop).2 ∧
    (StepPlanner.update inc ROBOT_MODE.WALKING true s).1.trotGait =
      s.trotGait ∧
    (StepPlanner.update inc ROBOT_MODE.WALKING true s).1._gaitType =
      s._gaitType := by
  have hc : ¬(s._legMode = LegMode.STANDING ∧ True) := fun hcontra =>
    h hcontra.1
  by_cases hm : s._legID = LegID.LEG_2 ∨ s._legID = LegID.LEG_3
  · simp only [StepPlanner.update, if_pos hm]
    rw [if_neg hc, if_pos trivial]
    simp
  · simp only [StepPlanner.update, if_neg hm]
    rw [if_neg hc, if_pos trivial]
    simp

/-- `advance` at the TROT half-period: preserves the phase/drop invariant,
moves the drop by exactly one signed increment chosen by the phase, and
changes phase only at drop ±70 along the four legal transitions. -/
lemma advance_inv (inc : ℤ) (h0 : 0 < inc) (hdvd : inc ∣ 70) (m : LegMode)
    (drop : ℤ) (hdvdD : inc ∣ drop)
    (hm : (m = LegMode.FIRST_STEP_ARC ∧ 0 ≤ drop ∧ drop < 70) ∨
      (m = LegMode.FIRST_STEP_DRAW_BACK ∧ -70 < drop ∧ drop ≤ 0) ∨
      (m = LegMode.ACTIVE_WALKING_ARC ∧ -70 ≤ drop ∧ drop < 70) ∨
      (m = LegMode.ACTIVE_WALKING_DRAW_BACK ∧ -70 < drop ∧ drop ≤ 70)) :
    (inc ∣ (StepPlanner.advance inc ((140 : ℤ) : ℝ) m drop).2 ∧
     (((StepPlanner.advance inc ((140 : ℤ) : ℝ) m drop).1 =
          LegMode.FIRST_STEP_ARC ∧
        0 ≤ (StepPlanner.advance inc ((140 : ℤ) : ℝ) m drop).2 ∧
        (StepPlanner.advance inc ((140 : ℤ) : ℝ) m drop).2 < 70) ∨
      ((StepPlanner.advance inc ((140 : ℤ) : ℝ) m drop).1 =
          LegMode.FIRST_STEP_DRAW_BACK ∧
        -70 < (StepPlanner.advance inc ((140 : ℤ) : ℝ) m drop).2 ∧
        (StepPlanner.advance inc ((140 : ℤ) : ℝ) m drop).2 ≤ 0) ∨
      ((StepPlanner.advance inc ((140 : ℤ) : ℝ) m drop).1 =
          LegMode.ACTIVE_WALKING_ARC ∧
        -70 ≤ (StepPlanner.advance inc ((140 : ℤ) : ℝ) m drop).2 ∧
        (StepPlanner.advance inc ((140 : ℤ) : ℝ) m drop).2 < 70) ∨
      ((StepPlanner.advance inc ((140 : ℤ) : ℝ) m drop).1 =
          LegMode.ACTIVE_WALKING_DRAW_BACK ∧
        -70 < (StepPlanner.advance inc ((140 : ℤ) : ℝ) m drop).2 ∧
        (StepPlanner.advance inc ((140 : ℤ) : ℝ) m drop).2 ≤ 70))) ∧
    ((m = LegMode.FIRST_STEP_ARC ∨ m = LegMode.ACTIVE_WALKING_ARC) →
      (StepPlanner.advance inc ((140 : ℤ) : ℝ) m drop).2 = drop + inc) ∧
    ((m = LegMode.FIRST_STEP_DRAW_BACK ∨
        m = LegMode.ACTIVE_WALKING_DRAW_BACK) →
      (StepPlanner.advance inc ((140 : ℤ) : ℝ) m drop).2 = drop - inc) ∧
    ((StepPlanner.advance inc ((140 : ℤ) : ℝ) m drop).1 ≠ m →
      ((m = LegMode.FIRST_STEP_ARC ∧
        (StepPlanner.advance inc ((140 : ℤ) : ℝ) m drop).1 =
          LegMode.ACTIVE_WALKING_DRAW_BACK ∧
        (StepPlanner.advance inc ((140 : ℤ) : ℝ) m drop).2 = 70) ∨
       (m = LegMode.ACTIVE_WALKING_ARC ∧
        (StepPlanner.advance inc ((140 : ℤ) : ℝ) m drop).1 =
          LegMode.ACTIVE_WALKING_DRAW_BACK ∧
        (StepPlanner.advance inc ((140 : ℤ) : ℝ) m drop).2 = 70) ∨
       (m = LegMode.FIRST_STEP_DRAW_BACK ∧
        (StepPlanner.advance inc ((140 : ℤ) : ℝ) m drop).1 =
          LegMode.ACTIVE_WALKING_ARC ∧
        (StepPlanner.advance inc ((140 : ℤ) : ℝ) m drop).2 = -70) ∨
       (m = LegMode.ACTIVE_WALKING_DRAW_BACK ∧
        (StepPlanner.advance inc ((140 : ℤ) : ℝ) m drop).1 =
          LegMode.ACTIVE_WALKING_ARC ∧
        (StepPlanner.advance inc ((140 : ℤ) : ℝ) m drop).2 = -70))) := by
  have cast70 : ∀ d : ℤ, (((d : ℤ) : ℝ) = ((140 : ℤ) : ℝ) / 2) ↔ d = 70 := by
    intro d
    constructor
    · intro hr
      have h2 : ((140 : ℤ) : ℝ) / 2 = ((70 : ℤ) : ℝ) := by norm_num
      rw [h2] at hr
      exact_mod_cast hr
    · intro hd
      rw [hd]
      norm_num
  have castm70 : ∀ d : ℤ,
      (((d : ℤ) : ℝ) = -1 * (((140 : ℤ) : ℝ) / 2)) ↔ d = -70 := by
    intro d
    constructor
    · intro hr
      have h2 : -1 * (((140 : ℤ) : ℝ) / 2) = ((-70 : ℤ) : ℝ) := by norm_num
      rw [h2] at hr
      exact_mod_cast hr
    · intro hd
      rw [hd]
      norm_num
  rcases hm with ⟨hmode, hlo, hhi⟩ | ⟨hmode, hlo, hhi⟩ | ⟨hmode, hlo, hhi⟩ |
    ⟨hmode, hlo, hhi⟩
  · -- FIRST_STEP_ARC
    subst hmode
    have e : StepPlanner.advance inc ((140 : ℤ) : ℝ) LegMode.FIRST_STEP_ARC
        drop =
        (if ((drop + inc : ℤ) : ℝ) = ((140 : ℤ) : ℝ) / 2 then
          LegMode.ACTIVE_WALKING_DRAW_BACK else LegMode.FIRST_STEP_ARC,
         drop + inc) := rfl
    by_cases h70 : drop + inc = 70
    · rw [e, if_pos ((cast70 (drop + inc)).mpr h70)]
      refine ⟨⟨dvd_add hdvdD dvd_rfl, ?_⟩, ?_, ?_, ?_⟩
      · right; right; right
        exact ⟨rfl, by omega, by omega⟩
      · intro hx
        rfl
      · intro hx
        rcases hx with hx | hx <;> simp at hx
      · intro hx
        left
        exact ⟨rfl, rfl, h70⟩
    · rw [e, if_neg (fun hr => h70 ((cast70 (drop + inc)).mp hr))]
      have hle : drop + inc ≤ 70 := dvd_add_le inc drop 70 h0 hdvdD hdvd hhi
      refine ⟨⟨dvd_add hdvdD dvd_rfl, ?_⟩, ?_, ?_, ?_⟩
      · left
        exact ⟨rfl, by omega, by omega⟩
      · intro hx
        rfl
      · intro hx
        rcases hx with hx | hx <;> simp at hx
      · intro hx
        exact absurd rfl hx
  · -- FIRST_STEP_DRAW_BACK
    subst hmode
    have e : StepPlanner.advance inc ((140 : ℤ) : ℝ)
        LegMode.FIRST_STEP_DRAW_BACK drop =
        (if ((drop - inc : ℤ) : ℝ) = -1 * (((140 : ℤ) : ℝ) / 2) then
          LegMode.ACTIVE_WALKING_ARC else LegMode.FIRST_STEP_DRAW_BACK,
         drop - inc) := rfl
    by_cases h70 : drop - inc = -70
    · rw [e, if_pos ((castm70 (drop - inc)).mpr h70)]
      refine ⟨⟨dvd_sub hdvdD dvd_rfl, ?_⟩, ?_, ?_, ?_⟩
      · right; right; left
        exact ⟨rfl, by omega, by omega⟩
      · intro hx
        rcases hx with hx | hx <;> simp at hx
      · intro hx
        rfl
      · intro hx
        right; right; left
        exact ⟨rfl, rfl, h70⟩
    · rw [e, if_neg (fun hr => h70 ((castm70 (drop - inc)).mp hr))]
      have hle : -70 + inc ≤ drop := by
        have := dvd_add_le inc (-70) drop h0
          ((dvd_neg).mpr hdvd) hdvdD hlo
        omega
      refine ⟨⟨dvd_sub hdvdD dvd_rfl, ?_⟩, ?_, ?_, ?_⟩
      · right; left
        exact ⟨rfl, by omega, by omega⟩
      · intro hx
        rcases hx with hx | hx <;> simp at hx
      · intro hx
        rfl
      · intro hx
        exact absurd rfl hx
  · -- ACTIVE_WALKING_ARC
    subst hmode
    have e : StepPlanner.advance inc ((140 : ℤ) : ℝ)
        LegMode.ACTIVE_WALKING_ARC drop =
        (if ((drop + inc : ℤ) : ℝ) = ((140 : ℤ) : ℝ) / 2 then
          LegMode.ACTIVE_WALKING_DRAW_BACK else LegMode.ACTIVE_WALKING_ARC,
         drop + inc) := rfl
    by_cases h70 : drop + inc = 70
    · rw [e, if_pos ((cast70 (drop + inc)).mpr h70)]
      refine ⟨⟨dvd_add hdvdD dvd_rfl, ?_⟩, ?_, ?_, ?_⟩
      · right; right; right
        exact ⟨rfl, by omega, by omega⟩
      · intro hx
        rfl
      · intro hx
        rcases hx with hx | hx <;> simp at hx
      · intro hx
        right; left
        exact ⟨rfl, rfl, h70⟩
    · rw [e, if_neg (fun hr => h70 ((cast70 (drop + inc)).mp hr))]
      have hle : drop + inc ≤ 70 := dvd_add_le inc drop 70 h0 hdvdD hdvd hhi
      refine ⟨⟨dvd_add hdvdD dvd_rfl, ?_⟩, ?_, ?_, ?_⟩
      · right; right; left
        exact ⟨rfl, by omega, by omega⟩
      · intro hx
        rfl
      · intro hx
        rcases hx with hx | hx <;> simp at hx
      · intro hx
        exact absurd rfl hx
  · -- ACTIVE_WALKING_DRAW_BACK
    subst hmode
    have e : StepPlanner.advance inc ((140 : ℤ) : ℝ)
        LegMode.ACTIVE_WALKING_DRAW_BACK drop =
        (if ((drop - inc : ℤ) : ℝ) = -1 * (((140 : ℤ) : ℝ) / 2) then
          LegMode.ACTIVE_WALKING_ARC else LegMode.ACTIVE_WALKING_DRAW_BACK,
         drop - inc) := rfl
    by_cases h70 : drop - inc = -70
    · rw [e, if_pos ((castm70 (drop - inc)).mpr h70)]
      refine ⟨⟨dvd_sub hdvdD dvd_rfl, ?_⟩, ?_, ?_, ?_⟩
      · right; right; left
        exact ⟨rfl, by omega, by omega⟩
      · intro hx
        rcases hx with hx | hx <;> simp at hx
      · intro hx
        rfl
      · intro hx
        right; right; right
        exact ⟨rfl, rfl, h70⟩
    · rw [e, if_neg (fun hr => h70 ((castm70 (drop - inc)).mp hr))]
      have hle : -70 + inc ≤ drop := by
        have := dvd_add_le inc (-70) drop h0
          ((dvd_neg).mpr hdvd) hdvdD hlo
        omega
      refine ⟨⟨dvd_sub hdvdD dvd_rfl, ?_⟩, ?_, ?_, ?_⟩
      · right; right; right
        exact ⟨rfl, by omega, by omega⟩
      · intro hx
        rcases hx with hx | hx <;> simp at hx
      · intro hx
        rfl
      · intro hx
        exact absurd rfl hx

/-- One scheduled WALKING update from any invariant state: the invariant is
preserved, the drop moves by exactly one signed increment chosen by the
phase, and phase changes happen only at drop ±70 along the four legal
transitions. -/
lemma walk_step (inc : ℤ) (h0 : 0 < inc) (hdvd : inc ∣ 70) (s : StepPlanner)
    (hInv : WalkInv inc s) :
    WalkInv inc (StepPlanner.update inc ROBOT_MODE.WALKING true s).1 ∧
    ((s._legMode = LegMode.FIRST_STEP_ARC ∨
        s._legMode = LegMode.ACTIVE_WALKING_ARC) →
      (StepPlanner.update inc ROBOT_MODE.WALKING true s).1._footXYDrop =
        s._footXYDrop + inc) ∧
    ((s._legMode = LegMode.FIRST_STEP_DRAW_BACK ∨
        s._legMode = LegMode.ACTIVE_WALKING_DRAW_BACK) →
      (StepPlanner.update inc ROBOT_MODE.WALKING true s).1._footXYDrop =
        s._footXYDrop - inc) ∧
    ((StepPlanner.update inc ROBOT_MODE.WALKING true s).1._legMode ≠
        s._legMode →
      ((s._legMode = LegMode.FIRST_STEP_ARC ∧
        (StepPlanner.update inc ROBOT_MODE.WALKING true s).1._legMode =
          LegMode.ACTIVE_WALKING_DRAW_BACK ∧
        (StepPlanner.update inc ROBOT_MODE.WALKING true s).1._footXYDrop =
          70) ∨
       (s._legMode = LegMode.ACTIVE_WALKING_ARC ∧
        (StepPlanner.update inc ROBOT_MODE.WALKING true s).1._legMode =
          LegMode.ACTIVE_WALKING_DRAW_BACK ∧
        (StepPlanner.update inc ROBOT_MODE.WALKING true s).1._footXYDrop =
          70) ∨
       (s._legMode = LegMode.FIRST_STEP_DRAW_BACK ∧
        (StepPlanner.update inc ROBOT_MODE.WALKING true s).1._legMode =
          LegMode.ACTIVE_WALKING_ARC ∧
        (StepPlanner.update inc ROBOT_MODE.WALKING true s).1._footXYDrop =
          -70) ∨
       (s._legMode = LegMode.ACTIVE_WALKING_DRAW_BACK ∧
        (StepPlanner.update inc ROBOT_MODE.WALKING true s).1._legMode =
          LegMode.ACTIVE_WALKING_ARC ∧
        (StepPlanner.update inc ROBOT_MODE.WALKING true s).1._footXYDrop =
          -70))) := by
  obtain ⟨hp, hdvdD, hdisj⟩ := hInv
  have hns : s._legMode ≠ LegMode.STANDING := by
    rcases hdisj with ⟨hm, -⟩ | ⟨hm, -⟩ | ⟨hm, -⟩ | ⟨hm, -⟩ <;> rw [hm] <;>
      simp
  obtain ⟨eM, eD, eT, eG⟩ := update_walk_eq inc s hns
  have hp' : (((s._gaits s._gaitType).periodHalf : ℤ) : ℝ) =
      ((140 : ℤ) : ℝ) := by
    have hpp : (s._gaits s._gaitType).periodHalf = 140 := hp
    rw [hpp]
  rw [hp'] at eM eD
  obtain ⟨⟨hudvd, hudisj⟩, hdarc, hddb, htrans⟩ :=
    advance_inv inc h0 hdvd s._legMode s._footXYDrop hdvdD hdisj
  refine ⟨⟨?_, ?_, ?_⟩, ?_, ?_, ?_⟩
  · rw [eT]
    exact hp
  · rw [eD]
    exact hudvd
  · rw [eM, eD]
    exact hudisj
  · intro hx
    rw [eD]
    exact hdarc hx
  · intro hx
    rw [eD]
    exact hddb hx
  · rw [eM, eD]
    exact htrans

/-- The walking invariant holds along the whole trajectory. -/
lemma walkSeq_inv (inc : ℤ) (legID : LegID) (rh : ℤ) (h0 : 0 < inc)
    (hdvd : inc ∣ 70) : ∀ n, WalkInv inc (walkSeq inc legID rh n) := by
  have harc : ∀ s : StepPlanner, s._legMode = LegMode.FIRST_STEP_ARC →
      s._footXYDrop = 0 → s.trotGait = ⟨50, 140⟩ → WalkInv inc s := by
    intro s h1 h2 h3
    refine ⟨by rw [h3], by rw [h2]; exact dvd_zero inc, ?_⟩
    left
    exact ⟨h1, by rw [h2], by rw [h2]; norm_num⟩
  have hdb : ∀ s : StepPlanner, s._legMode = LegMode.FIRST_STEP_DRAW_BACK →
      s._footXYDrop = 0 → s.trotGait = ⟨50, 140⟩ → WalkInv inc s := by
    intro s h1 h2 h3
    refine ⟨by rw [h3], by rw [h2]; exact dvd_zero inc, ?_⟩
    right; left
    exact ⟨h1, by rw [h2]; norm_num, by rw [h2]⟩
  intro n
  induction n with
  | zero =>
    cases legID with
    | LEG_1 => exact harc _ rfl rfl rfl
    | LEG_2 => exact hdb _ rfl rfl rfl
    | LEG_3 => exact harc _ rfl rfl rfl
    | LEG_4 => exact hdb _ rfl rfl rfl
  | succ n ih => exact (walk_step inc h0 hdvd _ ih).1

/-- C5: starting from Standing, commanding WALKING puts the leg in
FIRST_STEP_ARC (arc-leading identities) or FIRST_STEP_DRAW_BACK (the
others); thereafter on every scheduled update the foot drop stays within
[-periodHalf/2, periodHalf/2] = [-70, 70], the phase is never Standing,
the drop advances by exactly one GAIT_POSITION_INCREMENT with sign + in
*Arc phases and - in *DrawBack phases, every phase change happens exactly
at drop ±70 along FIRST_STEP_ARC → ACTIVE_WALKING_DRAW_BACK,
ACTIVE_WALKING_ARC → ACTIVE_WALKING_DRAW_BACK, FIRST_STEP_DRAW_BACK →
ACTIVE_WALKING_ARC, ACTIVE_WALKING_DRAW_BACK → ACTIVE_WALKING_ARC, and the
two active phases form an absorbing pair (the leg alternates between them
forever). -/
theorem C5_phase_cycle_closure (legID : LegID)
    (robotHeight GAIT_POSITION_INCREMENT : ℤ)
    (h0 : 0 < GAIT_POSITION_INCREMENT)
    (hdvd : GAIT_POSITION_INCREMENT ∣ 70) :
    ((legID = LegID.LEG_1 ∨ legID = LegID.LEG_3) →
      (walkSeq GAIT_POSITION_INCREMENT legID robotHeight 0)._legMode =
        LegMode.FIRST_STEP_ARC) ∧
    ((legID = LegID.LEG_2 ∨ legID = LegID.LEG_4) →
      (walkSeq GAIT_POSITION_INCREMENT legID robotHeight 0)._legMode =
        LegMode.FIRST_STEP_DRAW_BACK) ∧
    ∀ n : ℕ,
      (-70 ≤ (walkSeq GAIT_POSITION_INCREMENT legID robotHeight n)._footXYDrop ∧
       (walkSeq GAIT_POSITION_INCREMENT legID robotHeight n)._footXYDrop ≤
         70) ∧
      (walkSeq GAIT_POSITION_INCREMENT legID robotHeight n)._legMode ≠
        LegMode.STANDING ∧
      (((walkSeq GAIT_POSITION_INCREMENT legID robotHeight n)._legMode =
          LegMode.FIRST_STEP_ARC ∨
        (walkSeq GAIT_POSITION_INCREMENT legID robotHeight n)._legMode =
          LegMode.ACTIVE_WALKING_ARC) →
        (walkSeq GAIT_POSITION_INCREMENT legID robotHeight
            (n + 1))._footXYDrop =
          (walkSeq GAIT_POSITION_INCREMENT legID robotHeight n)._footXYDrop +
            GAIT_POSITION_INCREMENT) ∧
      (((walkSeq GAIT_POSITION_INCREMENT legID robotHeight n)._legMode =
          LegMode.FIRST_STEP_DRAW_BACK ∨
        (walkSeq GAIT_POSITION_INCREMENT legID robotHeight n)._legMode =
          LegMode.ACTIVE_WALKING_DRAW_BACK) →
        (walkSeq GAIT_POSITION_INCREMENT legID robotHeight
            (n + 1))._footXYDrop =
          (walkSeq GAIT_POSITION_INCREMENT legID robotHeight n)._footXYDrop -
            GAIT_POSITION_INCREMENT) ∧
      ((walkSeq GAIT_POSITION_INCREMENT legID robotHeight (n + 1))._legMode ≠
          (walkSeq GAIT_POSITION_INCREMENT legID robotHeight n)._legMode →
        (((walkSeq GAIT_POSITION_INCREMENT legID robotHeight n)._legMode =
            LegMode.FIRST_STEP_ARC ∧
          (walkSeq GAIT_POSITION_INCREMENT legID robotHeight
              (n + 1))._legMode = LegMode.ACTIVE_WALKING_DRAW_BACK ∧
          (walkSeq GAIT_POSITION_INCREMENT legID robotHeight
              (n + 1))._footXYDrop = 70) ∨
         ((walkSeq GAIT_POSITION_INCREMENT legID robotHeight n)._legMode =
            LegMode.ACTIVE_WALKING_ARC ∧
          (walkSeq GAIT_POSITION_INCREMENT legID robotHeight
              (n + 1))._legMode = LegMode.ACTIVE_WALKING_DRAW_BACK ∧
          (walkSeq GAIT_POSITION_INCREMENT legID robotHeight
              (n + 1))._footXYDrop = 70) ∨
         ((walkSeq GAIT_POSITION_INCREMENT legID robotHeight n)._legMode =
            LegMode.FIRST_STEP_DRAW_BACK ∧
          (walkSeq GAIT_POSITION_INCREMENT legID robotHeight
              (n + 1))._legMode = LegMode.ACTIVE_WALKING_ARC ∧
          (walkSeq GAIT_POSITION_INCREMENT legID robotHeight
              (n + 1))._footXYDrop = -70) ∨
         ((walkSeq GAIT_POSITION_INCREMENT legID robotHeight n)._legMode =
            LegMode.ACTIVE_WALKING_DRAW_BACK ∧
          (walkSeq GAIT_POSITION_INCREMENT legID robotHeight
              (n + 1))._legMode = LegMode.ACTIVE_WALKING_ARC ∧
          (walkSeq GAIT_POSITION_INCREMENT legID robotHeight
              (n + 1))._footXYDrop = -70))) ∧
      (((walkSeq GAIT_POSITION_INCREMENT legID robotHeight n)._legMode =
          LegMode.ACTIVE_WALKING_ARC ∨
        (walkSeq GAIT_POSITION_INCREMENT legID robotHeight n)._legMode =
          LegMode.ACTIVE_WALKING_DRAW_BACK) →
        ((walkSeq GAIT_POSITION_INCREMENT legID robotHeight
            (n + 1))._legMode = LegMode.ACTIVE_WALKING_ARC ∨
         (walkSeq GAIT_POSITION_INCREMENT legID robotHeight
            (n + 1))._legMode = LegMode.ACTIVE_WALKING_DRAW_BACK)) := by
  refine ⟨?_, ?_, ?_⟩
  · intro h
    rcases h with h | h <;> subst h <;> rfl
  · intro h
    rcases h with h | h <;> subst h <;> rfl
  · intro n
    have hInv := walkSeq_inv GAIT_POSITION_INCREMENT legID robotHeight h0
      hdvd n
    have hstep := walk_step GAIT_POSITION_INCREMENT h0 hdvd _ hInv
    have eSucc : walkSeq GAIT_POSITION_INCREMENT legID robotHeight (n + 1) =
        (StepPlanner.update GAIT_POSITION_INCREMENT ROBOT_MODE.WALKING true
          (walkSeq GAIT_POSITION_INCREMENT legID robotHeight n)).1 := rfl
    obtain ⟨hp, hdvdD, hdisj⟩ := hInv
    refine ⟨?_, ?_, ?_, ?_, ?_, ?_⟩
    · rcases hdisj with ⟨-, hlo, hhi⟩ | ⟨-, hlo, hhi⟩ | ⟨-, hlo, hhi⟩ |
        ⟨-, hlo, hhi⟩ <;> exact ⟨by omega, by omega⟩
    · rcases hdisj with ⟨hm, -⟩ | ⟨hm, -⟩ | ⟨hm, -⟩ | ⟨hm, -⟩ <;> rw [hm] <;>
        simp
    · rw [eSucc]
      exact hstep.2.1
    · rw [eSucc]
      exact hstep.2.2.1
    · rw [eSucc]
      exact hstep.2.2.2
    · intro hact
      by_cases he : (walkSeq GAIT_POSITION_INCREMENT legID robotHeight
          (n + 1))._legMode =
          (walkSeq GAIT_POSITION_INCREMENT legID robotHeight n)._legMode
      · rw [he]
        exact hact
      · rw [eSucc] at he
        rcases hstep.2.2.2 he with ⟨-, hm1, -⟩ | ⟨-, hm1, -⟩ | ⟨-, hm1, -⟩ |
          ⟨-, hm1, -⟩
        · right
          rw [eSucc]
          exact hm1
        · right
          rw [eSucc]
          exact hm1
        · left
          rw [eSucc]
          exact hm1
        · left
          rw [eSucc]
          exact hm1

/-- C5 witness: the phase-cycle property evaluated for LEG_1, robot height
120 and increment 10 (which divides the half-window 70). -/
theorem C5_phase_cycle_closure_witness :
    (0 : ℤ) < 10 ∧ (10 : ℤ) ∣ 70 ∧
    ((LegID.LEG_1 = LegID.LEG_1 ∨ LegID.LEG_1 = LegID.LEG_3) →
      (walkSeq 10 LegID.LEG_1 120 0)._legMode = LegMode.FIRST_STEP_ARC) ∧
    (∀ n : ℕ, -70 ≤ (walkSeq 10 LegID.LEG_1 120 n)._footXYDrop ∧
      (walkSeq 10 LegID.LEG_1 120 n)._footXYDrop ≤ 70) :=
  ⟨by decide, by decide,
   (C5_phase_cycle_closure LegID.LEG_1 120 10 (by decide) (by decide)).1,
   fun n =>
     ((C5_phase_cycle_closure LegID.LEG_1 120 10 (by decide)
       (by decide)).2.2 n).1⟩

/-- The C2 concrete scenario state: a leg at rest at robot height 120, TROT
profile as fixed by `init`, currently in FIRST_STEP_ARC. -/
def sC2 : StepPlanner :=
  ⟨LegID.LEG_1, LegMode.FIRST_STEP_ARC, GaitType.TROT, 120, ⟨50, 140⟩, 0,
   false, (0, 0, 120), (0, 0), ⟨0, InterpCommand.snapTo 0⟩,
   ⟨0, InterpCommand.snapTo 0⟩⟩

/-- Evaluation of `setStepEndpoint(50, 0)` on `sC2`: the endpoint lands at
(x = 0, y = 70) — the projected control vector (direction (1,0)) has zero
y-component, and the single axis swap routes that zero into
`_stepEndpoint.x`. Both interpolators are retargeted with the completion
time of the source formula. -/
lemma setStepEndpoint_sC2_eval (T inc : ℤ) :
    (StepPlanner.setStepEndpoint T inc sC2 50 0)._stepEndpoint.1 = 0 ∧
    (StepPlanner.setStepEndpoint T inc sC2 50 0)._stepEndpoint.2 = 70 ∧
    (StepPlanner.setStepEndpoint T inc sC2 50 0).footPosX.cmd =
      InterpCommand.moveTo 0
        ⌊((T : ℝ) - 1) * ((140 : ℝ) / (2 * (inc : ℝ)))⌋
        EasingKind.LINEAR RepeatKind.FORTHANDBACK ∧
    (StepPlanner.setStepEndpoint T inc sC2 50 0).footPosY.cmd =
      InterpCommand.moveTo 70
        ⌊((T : ℝ) - 1) * ((140 : ℝ) / (2 * (inc : ℝ)))⌋
        EasingKind.LINEAR RepeatKind.FORTHANDBACK := by
  have htdiv : (Int.tdiv (0 : ℤ) 50) = 0 := by decide
  have hmode : ¬(LegMode.FIRST_STEP_ARC = LegMode.ACTIVE_WALKING_DRAW_BACK ∨
      LegMode.FIRST_STEP_ARC = LegMode.FIRST_STEP_DRAW_BACK) := by decide
  refine ⟨?_, ?_, ?_, ?_⟩ <;>
    norm_num [StepPlanner.setStepEndpoint, StepPlanner._gaits, htdiv, sC2,
      if_neg hmode, ValueInterpolator.goTimed]

/-- C2 counterexample: the claim's concrete scenario expects a NONZERO
`stepEndpoint.x` from `setStepEndpoint(50, 0)` on a FIRST_STEP_ARC leg at
robot height 120; the source produces `stepEndpoint.x = 0` (and
`stepEndpoint.y = 70`), because the projection of the control vector
(50, 0) has zero y-component and the axis swap writes that y-component
into x. -/
theorem C2_counterexample :
    (StepPlanner.setStepEndpoint 10 5 sC2 50 0)._stepEndpoint.1 = 0 :=
  (setStepEndpoint_sC2_eval 10 5).1

/-- For every non-zero control vector, the step endpoint produced by
`setStepEndpoint` has squared magnitude (periodHalf/2)^2, whatever the
truncated slope, sign flips, draw-back flip and axis swap do. -/
lemma setStepEndpoint_magnitude (T inc : ℤ) (s : StepPlanner) (cx cy : ℤ)
    (h : ¬(cx = 0 ∧ cy = 0)) :
    (StepPlanner.setStepEndpoint T inc s cx cy)._stepEndpoint.1 ^ 2 +
      (StepPlanner.setStepEndpoint T inc s cx cy)._stepEndpoint.2 ^ 2 =
      ((((s._gaits s._gaitType).periodHalf : ℤ) : ℝ) / 2) ^ 2 := by
  have key : ∀ p g : ℝ,
      ((p / 2) / Real.sqrt (1 + g ^ 2)) ^ 2 +
        ((p / 2) * |g| / Real.sqrt (1 + g ^ 2)) ^ 2 = (p / 2) ^ 2 := by
    intro p g
    have hD : (0 : ℝ) < 1 + g ^ 2 := by positivity
    have hs : Real.sqrt (1 + g ^ 2) ^ 2 = 1 + g ^ 2 := Real.sq_sqrt hD.le
    have hDne : (1 : ℝ) + g ^ 2 ≠ 0 := hD.ne'
    simp only [div_pow, mul_pow, sq_abs, hs]
    field_simp
    ring
  simp only [StepPlanner.setStepEndpoint, if_neg h]
  by_cases hx : cx = 0
  · simp only [if_pos hx]
    split_ifs <;> norm_num
  · simp only [if_neg hx]
    split_ifs <;> simp only [neg_neg, neg_sq] <;> rw [add_comm] <;>
      exact key _ _

/-- When the control x is nonzero, divides the control y (so the truncated
integer slope is exact), and the leg is not in a draw-back phase, the step
endpoint is a positive multiple of the control vector with the two axes
swapped: direction is preserved up to the axis swap. -/
lemma setStepEndpoint_direction (T inc : ℤ) (s : StepPlanner) (cx cy : ℤ)
    (hx : cx ≠ 0) (hdvd : cx ∣ cy)
    (hp : 0 < (s._gaits s._gaitType).periodHalf)
    (hm1 : s._legMode ≠ LegMode.ACTIVE_WALKING_DRAW_BACK)
    (hm2 : s._legMode ≠ LegMode.FIRST_STEP_DRAW_BACK) :
    ∃ t : ℝ, 0 < t ∧
      (StepPlanner.setStepEndpoint T inc s cx cy)._stepEndpoint.1 =
        t * (cy : ℝ) ∧
      (StepPlanner.setStepEndpoint T inc s cx cy)._stepEndpoint.2 =
        t * (cx : ℝ) := by
  have hnz : ¬(cx = 0 ∧ cy = 0) := fun hc => hx hc.1
  have hmode : ¬(s._legMode = LegMode.ACTIVE_WALKING_DRAW_BACK ∨
      s._legMode = LegMode.FIRST_STEP_DRAW_BACK) := fun hc => hc.elim hm1 hm2
  simp only [StepPlanner.setStepEndpoint, if_neg hnz, if_neg hx,
    if_neg hmode]
  set g : ℝ := ((Int.tdiv cy cx : ℤ) : ℝ) with hg
  set p : ℝ := (((s._gaits s._gaitType).periodHalf : ℤ) : ℝ) with hpdef
  have hppos : (0 : ℝ) < p := by
    rw [hpdef]
    exact_mod_cast hp
  have hcxR : ((cx : ℝ)) ≠ 0 := Int.cast_ne_zero.mpr hx
  have hgcx : g * (cx : ℝ) = (cy : ℝ) := by
    rw [hg]
    have := congrArg (fun k : ℤ => (k : ℝ)) (Int.tdiv_mul_cancel hdvd)
    push_cast at this
    exact this
  have habsg : |g| * |(cx : ℝ)| = |(cy : ℝ)| := by
    rw [← abs_mul, hgcx]
  have hsq : (0 : ℝ) < Real.sqrt (1 + g ^ 2) :=
    Real.sqrt_pos.mpr (by positivity)
  set X : ℝ := p / 2 / Real.sqrt (1 + g ^ 2) with hX
  have hXpos : 0 < X := by
    rw [hX]
    exact div_pos (by linarith) hsq
  have habscx : (0 : ℝ) < |(cx : ℝ)| := abs_pos.mpr hcxR
  refine ⟨X / |(cx : ℝ)|, div_pos hXpos habscx, ?_, ?_⟩
  · have hY : p / 2 * |g| / Real.sqrt (1 + g ^ 2) = X * |g| := by
      rw [hX]
      ring
    rw [hY]
    have hXg : X * |g| = X * |(cy : ℝ)| / |(cx : ℝ)| := by
      rw [mul_div_assoc, ← habsg]
      field_simp
    by_cases hcy : cy < 0
    · rw [if_pos hcy, hXg]
      have : |(cy : ℝ)| = -(cy : ℝ) := abs_of_neg (by exact_mod_cast hcy)
      rw [this]
      field_simp
    · rw [if_neg hcy, hXg]
      have : |(cy : ℝ)| = (cy : ℝ) := abs_of_nonneg (by
        push_neg at hcy
        exact_mod_cast hcy)
      rw [this]
      ring
  · by_cases hcx : cx < 0
    · rw [if_pos hcx]
      have : |(cx : ℝ)| = -(cx : ℝ) := abs_of_neg (by exact_mod_cast hcx)
      rw [this, div_neg, neg_mul, div_mul_cancel₀ _ hcxR]
    · rw [if_neg hcx]
      have : |(cx : ℝ)| = (cx : ℝ) := abs_of_nonneg (by
        push_neg at hcx
        exact_mod_cast hcx)
      rw [this]
      field_simp

/-- The interpolator completion time of `setStepEndpoint` is strictly
positive whenever the update interval exceeds 1 ms and the gait increment
is a positive step no larger than the half-window 70. -/
lemma completionTime_pos (T inc : ℤ) (hT : 2 ≤ T) (h0 : 0 < inc)
    (h70 : inc ≤ 70) :
    0 < ⌊((T : ℝ) - 1) * ((140 : ℝ) / (2 * (inc : ℝ)))⌋ := by
  have hincR : (0 : ℝ) < (inc : ℝ) := by exact_mod_cast h0
  have hne : (inc : ℝ) ≠ 0 := hincR.ne'
  have heq : (140 : ℝ) / (2 * (inc : ℝ)) = 70 / (inc : ℝ) := by
    field_simp
    ring
  have h1 : (1 : ℝ) ≤ (T : ℝ) - 1 := by
    have h2T : (2 : ℝ) ≤ (T : ℝ) := by exact_mod_cast hT
    linarith
  have h2 : (1 : ℝ) ≤ 70 / (inc : ℝ) := by
    rw [le_div_iff₀ hincR]
    have h70R : (inc : ℝ) ≤ 70 := by exact_mod_cast h70
    linarith
  have h3 : (1 : ℝ) ≤ ((T : ℝ) - 1) * ((140 : ℝ) / (2 * (inc : ℝ))) := by
    rw [heq]
    calc (1 : ℝ) = 1 * 1 := by norm_num
      _ ≤ ((T : ℝ) - 1) * (70 / (inc : ℝ)) :=
        mul_le_mul h1 h2 (by norm_num) (by linarith)
  have h4 : (1 : ℤ) ≤ ⌊((T : ℝ) - 1) * ((140 : ℝ) / (2 * (inc : ℝ)))⌋ :=
    Int.le_floor.mpr (by exact_mod_cast h3)
  omega

/-- C2 amended: for every non-zero control vector the step endpoint lies on
the circle of radius periodHalf/2, and its direction is that of the control
vector — with the two axes swapped once — whenever the truncated integer
slope controlY/controlX is exact (controlX divides controlY) and the leg is
not in a draw-back phase (vertical controls handled by the explicit
controlX = 0 branch). In the concrete scenario, `setStepEndpoint(50, 0)` on
a FIRST_STEP_ARC leg at robot height 120 yields `stepEndpoint.x = 0` and a
NONZERO `stepEndpoint.y = 70` (the claim expected the x component to be
nonzero), and both axis interpolators are retargeted with the same strictly
positive, finite completion time, linear easing and forth-and-back
repeat. -/
theorem C2_projection_amended (T inc : ℤ) (hT : 2 ≤ T) (h0 : 0 < inc)
    (h70 : inc ≤ 70) :
    ((StepPlanner.setStepEndpoint T inc sC2 50 0)._stepEndpoint.1 = 0 ∧
     (StepPlanner.setStepEndpoint T inc sC2 50 0)._stepEndpoint.2 = 70 ∧
     ∃ ct : ℤ, 0 < ct ∧
       (StepPlanner.setStepEndpoint T inc sC2 50 0).footPosX.cmd =
         InterpCommand.moveTo 0 ct EasingKind.LINEAR
           RepeatKind.FORTHANDBACK ∧
       (StepPlanner.setStepEndpoint T inc sC2 50 0).footPosY.cmd =
         InterpCommand.moveTo 70 ct EasingKind.LINEAR
           RepeatKind.FORTHANDBACK) ∧
    (∀ s : StepPlanner, ∀ cx cy : ℤ, ¬(cx = 0 ∧ cy = 0) →
      (StepPlanner.setStepEndpoint T inc s cx cy)._stepEndpoint.1 ^ 2 +
        (StepPlanner.setStepEndpoint T inc s cx cy)._stepEndpoint.2 ^ 2 =
        ((((s._gaits s._gaitType).periodHalf : ℤ) : ℝ) / 2) ^ 2) ∧
    (∀ s : StepPlanner, ∀ cx cy : ℤ, cx ≠ 0 → cx ∣ cy →
      0 < (s._gaits s._gaitType).periodHalf →
      s._legMode ≠ LegMode.ACTIVE_WALKING_DRAW_BACK →
      s._legMode ≠ LegMode.FIRST_STEP_DRAW_BACK →
      ∃ t : ℝ, 0 < t ∧
        (StepPlanner.setStepEndpoint T inc s cx cy)._stepEndpoint.1 =
          t * (cy : ℝ) ∧
        (StepPlanner.setStepEndpoint T inc s cx cy)._stepEndpoint.2 =
          t * (cx : ℝ)) := by
  obtain ⟨e1, e2, e3, e4⟩ := setStepEndpoint_sC2_eval T inc
  exact ⟨⟨e1, e2, ⟨_, completionTime_pos T inc hT h0 h70, e3, e4⟩⟩,
    fun s cx cy h => setStepEndpoint_magnitude T inc s cx cy h,
    fun s cx cy hx hdvd hp hm1 hm2 =>
      setStepEndpoint_direction T inc s cx cy hx hdvd hp hm1 hm2⟩

/-- C2 witness: the amended scenario conjunct evaluated at update interval
10 and increment 5. -/
theorem C2_projection_amended_witness :
    (2 : ℤ) ≤ 10 ∧ (0 : ℤ) < 5 ∧ (5 : ℤ) ≤ 70 ∧
    ((StepPlanner.setStepEndpoint 10 5 sC2 50 0)._stepEndpoint.1 = 0 ∧
     (StepPlanner.setStepEndpoint 10 5 sC2 50 0)._stepEndpoint.2 = 70 ∧
     ∃ ct : ℤ, 0 < ct ∧
       (StepPlanner.setStepEndpoint 10 5 sC2 50 0).footPosX.cmd =
         InterpCommand.moveTo 0 ct EasingKind.LINEAR
           RepeatKind.FORTHANDBACK ∧
       (StepPlanner.setStepEndpoint 10 5 sC2 50 0).footPosY.cmd =
         InterpCommand.moveTo 70 ct EasingKind.LINEAR
           RepeatKind.FORTHANDBACK) :=
  ⟨by decide, by decide, by decide,
   (C2_projection_amended 10 5 (by decide) (by decide) (by decide)).1⟩
